import Mathlib

/-!
ElectroCalc tariff engine (`assets/js/script.js`).

A shallow embedding of the bill calculation of the ElectroCalc page: the two
tariff tables, `calculateTPPAN`, `getTariffForConsumption`,
`calculateRADEEFBill`, `calculateONEEBill`, the input guard of
`performCalculation` and the history list of `saveToHistory`.

Modelling conventions.
* A JavaScript number is an exact rational (`ℚ`); the rounding of IEEE doubles
  is not modelled. The value `Infinity`, which the tables use as the `max` of
  their last tier, is the constructor `Limit.infinity`; `NaN`, which
  `parseFloat` can produce, is `none` in the input of `performCalculation` and
  of `calculateTPPANAt`.
* Reading a property of `undefined` (an array index past the end) throws a
  `TypeError`; functions that can do so return `Except JSError _`.
* The variables of the script that its functions assign, the stored history and
  the two table objects form the state `Globals`; the functions that assign them
  are the constructors of `Action`, and the three calculation functions have a
  state-passing form (`calculateTPPANIn`, `calculateRADEEFBillIn`,
  `calculateONEEBillIn`).
* The label of a consumption tier entry is a template string built from
  `tier.min`, `tier.max` and `tier.system`; the entry keeps these three values
  (`TierLabel`) instead of the rendered text.
-/

namespace Electro

/-- The `max` of a tier: a finite number or JavaScript's `Infinity`. -/
inductive Limit where
  | fin (q : ℚ)
  | infinity
  deriving DecidableEq

/-- The comparison `consumption <= tier.max`. -/
def Limit.ge (m : Limit) (consumption : ℚ) : Bool :=
  match m with
  | Limit.fin q => decide (consumption ≤ q)
  | Limit.infinity => true

/-- The expression `Math.min(remaining, tier.max - tier.min + 1)`. -/
def Limit.minWidth (remaining : ℚ) (tmax : Limit) (tmin : ℚ) : ℚ :=
  match tmax with
  | Limit.fin q => min remaining (q - tmin + 1)
  | Limit.infinity => remaining

/-- An entry of `progressive` or `selective`. -/
structure Tier where
  min : ℚ
  max : Limit
  priceHT : ℚ
  system : String
  deriving DecidableEq

/-- An entry of `tppan.tiers`. -/
structure TppanTier where
  min : ℚ
  max : Limit
  priceHT : ℚ
  name : String
  deriving DecidableEq

/-- The `tppan` object of a tariff table. -/
structure Tppan where
  exemptionThreshold : ℚ
  validFrom : String
  validTo : String
  tiers : List TppanTier
  deriving DecidableEq

/-- A tariff table (`RADEEF_TARIFFS`, `ONEE_TARIFFS`). -/
structure Tariffs where
  progressive : List Tier
  selective : List Tier
  vatRate : ℚ
  fixedFeeHT : ℚ
  tppan : Tppan
  deriving DecidableEq

/-- The values interpolated into the `tier` label of a breakdown entry. -/
structure TierLabel where
  min : ℚ
  max : Limit
  system : String
  deriving DecidableEq

/-- An entry of `tierBreakdown`. -/
structure TierEntry where
  tier : TierLabel
  consumption : ℚ
  priceHT : ℚ
  cost : ℚ
  deriving DecidableEq

/-- An entry of the TPPAN `breakdown`. -/
structure TppanEntry where
  name : String
  consumption : ℚ
  priceHT : ℚ
  cost : ℚ
  deriving DecidableEq

/-- The object returned by `calculateTPPAN`. -/
structure TppanResult where
  tppanHT : ℚ
  tppanVAT : ℚ
  tppanTTC : ℚ
  breakdown : List TppanEntry
  isExempted : Bool
  deriving DecidableEq

/-- The object returned by `calculateRADEEFBill` and `calculateONEEBill`. -/
structure Bill where
  consumption : ℚ
  consumptionHT : ℚ
  consumptionVAT : ℚ
  consumptionTTC : ℚ
  fixedFeeHT : ℚ
  fixedFeeVAT : ℚ
  fixedFeeTTC : ℚ
  tppanHT : ℚ
  tppanVAT : ℚ
  tppanTTC : ℚ
  tppanBreakdown : List TppanEntry
  tppanExempted : Bool
  totalHT : ℚ
  totalVAT : ℚ
  totalTTC : ℚ
  tierBreakdown : List TierEntry
  provider : String
  deriving DecidableEq

/-- The exception raised by reading a property of `undefined`. -/
inductive JSError where
  | typeError
  deriving DecidableEq

/-- The array access `xs[i]` followed by a property read. -/
def index {α : Type} (xs : List α) (i : Nat) : Except JSError α :=
  match xs[i]? with
  | some x => Except.ok x
  | none => Except.error JSError.typeError

/-- The table `RADEEF_TARIFFS`. -/
def RADEEF_TARIFFS : Tariffs where
  progressive := [
    { min := 0, max := Limit.fin 100, priceHT := 0.7636, system := "تدريجي" },
    { min := 101, max := Limit.fin 150, priceHT := 0.9095, system := "تدريجي" } ]
  selective := [
    { min := 151, max := Limit.fin 210, priceHT := 0.9095, system := "انتقائي" },
    { min := 211, max := Limit.fin 310, priceHT := 0.9895, system := "انتقائي" },
    { min := 311, max := Limit.fin 510, priceHT := 1.1709, system := "انتقائي" },
    { min := 511, max := Limit.infinity, priceHT := 1.3524, system := "انتقائي" } ]
  vatRate := 0.18
  fixedFeeHT := 20.74
  tppan := {
    exemptionThreshold := 200
    validFrom := "2025-01-01"
    validTo := "2025-12-31"
    tiers := [
      { min := 0, max := Limit.fin 100, priceHT := 0.0847, name := "الشريحة 1" },
      { min := 101, max := Limit.fin 200, priceHT := 0.1271, name := "الشريحة 2" },
      { min := 201, max := Limit.infinity, priceHT := 0.1695, name := "الشريحة 3" } ] }

/-- The table `ONEE_TARIFFS`. -/
def ONEE_TARIFFS : Tariffs where
  progressive := [
    { min := 0, max := Limit.fin 100, priceHT := 0.7636, system := "تدريجي" },
    { min := 101, max := Limit.fin 150, priceHT := 0.9095, system := "تدريجي" } ]
  selective := [
    { min := 151, max := Limit.fin 210, priceHT := 0.9095, system := "انتقائي" },
    { min := 211, max := Limit.fin 310, priceHT := 0.9895, system := "انتقائي" },
    { min := 311, max := Limit.fin 510, priceHT := 1.1709, system := "انتقائي" },
    { min := 511, max := Limit.infinity, priceHT := 1.3524, system := "انتقائي" } ]
  vatRate := 0.20
  fixedFeeHT := 20.74
  tppan := {
    exemptionThreshold := 200
    validFrom := "2025-01-01"
    validTo := "2025-12-31"
    tiers := [
      { min := 0, max := Limit.fin 100, priceHT := 0.0847, name := "الشريحة 1" },
      { min := 101, max := Limit.fin 200, priceHT := 0.1271, name := "الشريحة 2" },
      { min := 201, max := Limit.infinity, priceHT := 0.1695, name := "الشريحة 3" } ] }

/-- The function `calculateTPPAN(consumption, tariffs)`. -/
def calculateTPPAN (consumption : ℚ) (tariffs : Tariffs) : Except JSError TppanResult :=
  if consumption ≤ tariffs.tppan.exemptionThreshold then
    Except.ok
      { tppanHT := 0, tppanVAT := 0, tppanTTC := 0, breakdown := [], isExempted := true }
  else
    (index tariffs.tppan.tiers 0).bind fun t0 =>
    let tier1Consumption : ℚ := 100
    let tier1Cost := tier1Consumption * t0.priceHT
    let tppanHT1 := 0 + tier1Cost
    let breakdown1 : List TppanEntry := [] ++ [
      { name := t0.name ++ " (0-100 كيلوواط ساعة)", consumption := tier1Consumption,
        priceHT := t0.priceHT, cost := tier1Cost }]
    (index tariffs.tppan.tiers 1).bind fun t1 =>
    let tier2Consumption : ℚ := 100
    let tier2Cost := tier2Consumption * t1.priceHT
    let tppanHT2 := tppanHT1 + tier2Cost
    let breakdown2 : List TppanEntry := breakdown1 ++ [
      { name := t1.name ++ " (101-200 كيلوواط ساعة)", consumption := tier2Consumption,
        priceHT := t1.priceHT, cost := tier2Cost }]
    let third : Except JSError (ℚ × List TppanEntry) :=
      if consumption > 200 then
        (index tariffs.tppan.tiers 2).bind fun t2 =>
        let tier3Consumption := consumption - 200
        let tier3Cost := tier3Consumption * t2.priceHT
        Except.ok (tppanHT2 + tier3Cost, breakdown2 ++ [
          { name := t2.name ++ " (>200 كيلوواط ساعة)", consumption := tier3Consumption,
            priceHT := t2.priceHT, cost := tier3Cost }])
      else Except.ok (tppanHT2, breakdown2)
    third.bind fun hb =>
    let tppanHT := hb.1
    let breakdown := hb.2
    let tppanVAT := tppanHT * tariffs.vatRate
    let tppanTTC := tppanHT + tppanVAT
    Except.ok
      { tppanHT := tppanHT, tppanVAT := tppanVAT, tppanTTC := tppanTTC,
        breakdown := breakdown, isExempted := false }

/-- The test `consumption >= tier.min && consumption <= tier.max`. -/
def Tier.contains (tier : Tier) (consumption : ℚ) : Bool :=
  decide (consumption ≥ tier.min) && tier.max.ge consumption

/-- The function `getTariffForConsumption(consumption, tariffs)`; `null` is `none`. -/
def getTariffForConsumption (consumption : ℚ) (tariffs : Tariffs) : Option Tier :=
  if consumption ≤ 150 then
    tariffs.progressive.find? fun tier => tier.contains consumption
  else
    tariffs.selective.find? fun tier => tier.contains consumption

/-- The loop `for (const tier of tariffs.progressive)` of the bill functions, as
a function of the tiers still to visit and of the loop variables
`remainingConsumption`, `consumptionHT` and `tierBreakdown`. -/
def progressiveLoop :
    List Tier → ℚ → ℚ → List TierEntry → ℚ × List TierEntry
  | [], _, consumptionHT, tierBreakdown => (consumptionHT, tierBreakdown)
  | tier :: rest, remainingConsumption, consumptionHT, tierBreakdown =>
    if remainingConsumption ≤ 0 then (consumptionHT, tierBreakdown)
    else
      let tierConsumption := Limit.minWidth remainingConsumption tier.max tier.min
      let tierCost := tierConsumption * tier.priceHT
      progressiveLoop rest (remainingConsumption - tierConsumption)
        (consumptionHT + tierCost)
        (tierBreakdown ++ [
          { tier := { min := tier.min, max := tier.max, system := tier.system },
            consumption := tierConsumption, priceHT := tier.priceHT, cost := tierCost }])

/-- The first part of the bill functions: the consumption charge and its
breakdown, by the progressive loop up to 150 and by the selective tier above. -/
def consumptionCharge (consumption : ℚ) (tariffs : Tariffs) : ℚ × List TierEntry :=
  if consumption ≤ 150 then
    progressiveLoop tariffs.progressive consumption 0 []
  else
    match getTariffForConsumption consumption tariffs with
    | some tier =>
      let consumptionHT := consumption * tier.priceHT
      (consumptionHT, [] ++ [
        { tier := { min := tier.min, max := tier.max, system := tier.system },
          consumption := consumption, priceHT := tier.priceHT, cost := consumptionHT }])
    | none => (0, [])

/-- The common body of `calculateRADEEFBill` and `calculateONEEBill`, which differ
in the table and in the provider label only. -/
def calculateBillWith (tariffs : Tariffs) (provider : String) (consumption : ℚ) :
    Except JSError Bill :=
  let charge := consumptionCharge consumption tariffs
  let consumptionHT := charge.1
  let tierBreakdown := charge.2
  let fixedFeeHT := tariffs.fixedFeeHT
  let fixedFeeVAT := fixedFeeHT * tariffs.vatRate
  let fixedFeeTTC := fixedFeeHT + fixedFeeVAT
  (calculateTPPAN consumption tariffs).bind fun tppanResult =>
  let consumptionVAT := consumptionHT * tariffs.vatRate
  let consumptionTTC := consumptionHT + consumptionVAT
  let totalTTC := consumptionTTC + fixedFeeTTC + tppanResult.tppanTTC
  Except.ok
    { consumption := consumption
      consumptionHT := consumptionHT
      consumptionVAT := consumptionVAT
      consumptionTTC := consumptionTTC
      fixedFeeHT := fixedFeeHT
      fixedFeeVAT := fixedFeeVAT
      fixedFeeTTC := fixedFeeTTC
      tppanHT := tppanResult.tppanHT
      tppanVAT := tppanResult.tppanVAT
      tppanTTC := tppanResult.tppanTTC
      tppanBreakdown := tppanResult.breakdown
      tppanExempted := tppanResult.isExempted
      totalHT := consumptionHT + fixedFeeHT + tppanResult.tppanHT
      totalVAT := consumptionVAT + fixedFeeVAT + tppanResult.tppanVAT
      totalTTC := totalTTC
      tierBreakdown := tierBreakdown
      provider := provider }

/-- The function `calculateRADEEFBill(consumption)`. -/
def calculateRADEEFBill (consumption : ℚ) : Except JSError Bill :=
  calculateBillWith RADEEF_TARIFFS "RADEEF" consumption

/-- The function `calculateONEEBill(consumption)`. -/
def calculateONEEBill (consumption : ℚ) : Except JSError Bill :=
  calculateBillWith ONEE_TARIFFS "ONEE" consumption

/-- What `performCalculation` does with its input. -/
inductive Outcome where
  | rejected
  | displayed (result : Bill)
  | failed (error : JSError)
  deriving DecidableEq

/-- The function `performCalculation`, as a function of the parsed `consumption`
field (`none` is `NaN`) and of the `provider` field: the guard
`!consumption || consumption <= 0` shows an error notification and returns;
otherwise the bill of the provider is computed and displayed, and an exception
is caught and handed to `handleError`. -/
def performCalculation (consumption : Option ℚ) (provider : String) : Outcome :=
  match consumption with
  | none => Outcome.rejected
  | some c =>
    if c = 0 ∨ c ≤ 0 then Outcome.rejected
    else
      match (if provider = "radeef" then calculateRADEEFBill c else calculateONEEBill c) with
      | Except.ok result => Outcome.displayed result
      | Except.error e => Outcome.failed e

/-- A table with two surtax tiers only: `RADEEF_TARIFFS` without its third
surtax tier. -/
def twoSurtaxTiers : Tariffs :=
  { RADEEF_TARIFFS with
    tppan := { RADEEF_TARIFFS.tppan with tiers := RADEEF_TARIFFS.tppan.tiers.take 2 } }

/-- A table whose exemption threshold is below 200: `RADEEF_TARIFFS` with the
threshold set to 150. -/
def threshold150 : Tariffs :=
  { RADEEF_TARIFFS with tppan := { RADEEF_TARIFFS.tppan with exemptionThreshold := 150 } }

/-- An element of `calculationHistory`: the fields of a result (`...result`)
followed by `date` and `id`. -/
structure HistoryItem where
  result : Bill
  date : String
  id : ℕ
  deriving DecidableEq

/-- The state that `saveToHistory` reads and writes: the global
`calculationHistory` and the list stored, as JSON, under the key
`electricityHistory` of `localStorage`. -/
structure HistoryState where
  calculationHistory : List HistoryItem
  electricityHistory : List HistoryItem
  deriving DecidableEq

/-- The function `saveToHistory(result)`, as a function of the result, of the two
readings of the clock (`new Date().toISOString()` and `Date.now()`) and of the
state: `unshift` puts the new item first, `slice(0, 12)` keeps the first twelve
elements when there are more than twelve, and the list is stored. -/
def saveToHistory (result : Bill) (isoDate : String) (now : ℕ) (s : HistoryState) :
    HistoryState :=
  let historyItem : HistoryItem := { result := result, date := isoDate, id := now }
  let unshifted := historyItem :: s.calculationHistory
  let calculationHistory :=
    if unshifted.length > 12 then unshifted.take 12 else unshifted
  { calculationHistory := calculationHistory, electricityHistory := calculationHistory }

/-- The function `calculateTPPAN(consumption, tariffs)` on a consumption that may
be `NaN` (`none`): the comparisons `consumption <= exemptionThreshold` and
`consumption > 200` are both false at `NaN`, so the first two quantities are
charged and the third is not. On a number it is `calculateTPPAN`. -/
def calculateTPPANAt (consumption : Option ℚ) (tariffs : Tariffs) :
    Except JSError TppanResult :=
  let exempt : Bool :=
    match consumption with
    | some c => decide (c ≤ tariffs.tppan.exemptionThreshold)
    | none => false
  if exempt then
    Except.ok
      { tppanHT := 0, tppanVAT := 0, tppanTTC := 0, breakdown := [], isExempted := true }
  else
    (index tariffs.tppan.tiers 0).bind fun t0 =>
    let tier1Consumption : ℚ := 100
    let tier1Cost := tier1Consumption * t0.priceHT
    let tppanHT1 := 0 + tier1Cost
    let breakdown1 : List TppanEntry := [] ++ [
      { name := t0.name ++ " (0-100 كيلوواط ساعة)", consumption := tier1Consumption,
        priceHT := t0.priceHT, cost := tier1Cost }]
    (index tariffs.tppan.tiers 1).bind fun t1 =>
    let tier2Consumption : ℚ := 100
    let tier2Cost := tier2Consumption * t1.priceHT
    let tppanHT2 := tppanHT1 + tier2Cost
    let breakdown2 : List TppanEntry := breakdown1 ++ [
      { name := t1.name ++ " (101-200 كيلوواط ساعة)", consumption := tier2Consumption,
        priceHT := t1.priceHT, cost := tier2Cost }]
    let third : Except JSError (ℚ × List TppanEntry) :=
      match consumption with
      | some c =>
        if c > 200 then
          (index tariffs.tppan.tiers 2).bind fun t2 =>
          let tier3Consumption := c - 200
          let tier3Cost := tier3Consumption * t2.priceHT
          Except.ok (tppanHT2 + tier3Cost, breakdown2 ++ [
            { name := t2.name ++ " (>200 كيلوواط ساعة)", consumption := tier3Consumption,
              priceHT := t2.priceHT, cost := tier3Cost }])
        else Except.ok (tppanHT2, breakdown2)
      | none => Except.ok (tppanHT2, breakdown2)
    third.bind fun hb =>
    let tppanHT := hb.1
    let breakdown := hb.2
    let tppanVAT := tppanHT * tariffs.vatRate
    let tppanTTC := tppanHT + tppanVAT
    Except.ok
      { tppanHT := tppanHT, tppanVAT := tppanVAT, tppanTTC := tppanTTC,
        breakdown := breakdown, isExempted := false }

/-- The state of the script that its functions can read and write: the variables
declared with `let` (`currentLanguage`, `currentSection`, `calculationHistory`
and the three chart handles, `null` being `none`), the stored copy of the
history, and the two table objects, whose fields JavaScript lets any code
assign. -/
structure Globals where
  currentLanguage : String
  currentSection : String
  history : HistoryState
  costBreakdownChart : Option ℕ
  consumptionChart : Option ℕ
  costChart : Option ℕ
  RADEEF_TARIFFS : Tariffs
  ONEE_TARIFFS : Tariffs
  deriving DecidableEq

/-- The state once the declarations at the top of the script have run, `stored`
being the history parsed from `localStorage`. -/
def initialGlobals (stored : List HistoryItem) : Globals where
  currentLanguage := "ar"
  currentSection := "hero"
  history := { calculationHistory := stored, electricityHistory := stored }
  costBreakdownChart := none
  consumptionChart := none
  costChart := none
  RADEEF_TARIFFS := RADEEF_TARIFFS
  ONEE_TARIFFS := ONEE_TARIFFS

/-- The function `calculateTPPAN` in state-passing form: its body reads its two
parameters only and assigns no variable outside it. -/
def calculateTPPANIn (g : Globals) (consumption : ℚ) (tariffs : Tariffs) :
    Except JSError TppanResult × Globals :=
  (calculateTPPAN consumption tariffs, g)

/-- The function `calculateRADEEFBill` in state-passing form: `const tariffs =
RADEEF_TARIFFS` reads the table object; nothing else of the state is read and
nothing is assigned. -/
def calculateRADEEFBillIn (g : Globals) (consumption : ℚ) : Except JSError Bill × Globals :=
  (calculateBillWith g.RADEEF_TARIFFS "RADEEF" consumption, g)

/-- The function `calculateONEEBill` in state-passing form, reading `ONEE_TARIFFS`. -/
def calculateONEEBillIn (g : Globals) (consumption : ℚ) : Except JSError Bill × Globals :=
  (calculateBillWith g.ONEE_TARIFFS "ONEE" consumption, g)

/-- The sample data of the page initialisation: consumption and date of each
item. -/
def sampleData : List (ℚ × String) :=
  [(250, "2024-12-01"), (180, "2024-11-01"), (220, "2024-10-01"),
   (190, "2024-09-01"), (240, "2024-08-01"), (310, "2024-07-01")]

/-- The `sampleData.map(...)` of the page initialisation from position `index`
on: each item is the RADEEF bill of its consumption with its date and the id
`Date.now() + index`, `clock index` being the reading of the clock for that
item. -/
def sampleItems (g : Globals) (clock : ℕ → ℕ) :
    List (ℚ × String) → ℕ → Except JSError (List HistoryItem)
  | [], _ => Except.ok []
  | (consumption, date) :: rest, index =>
    (calculateRADEEFBillIn g consumption).1.bind fun bill =>
    (sampleItems g clock rest (index + 1)).bind fun items =>
    Except.ok ({ result := bill, date := date, id := clock index + index } :: items)

/-- The functions of the script that assign a variable of the state, with what
they take from outside it: whether the DOM element they look up exists, the chart
object they create, the readings of the clock. -/
inductive Action where
  | toggleLanguage
  | showSection (sectionName : String) (found : Bool)
  | updateCostBreakdownChart (result : Bill) (ctx : Bool) (chart : ℕ)
  | saveToHistory (result : Bill) (isoDate : String) (now : ℕ)
  | initializeConsumptionChart (ctx : Bool) (chart : ℕ)
  | initializeCostChart (ctx : Bool) (chart : ℕ)
  | initializeHistory (clock : ℕ → ℕ)

/-- The effect of each function on the state. `toggleLanguage` swaps `fr` and
`ar`; `showSection` sets `currentSection` when the section exists; the three chart
functions return when the canvas is missing and otherwise store the new chart;
`saveToHistory` is the function of that name; the page initialisation fills an
empty history with the sample items and stores it, inside a `try` whose `catch`
leaves the state as it was. -/
def Action.apply (a : Action) (g : Globals) : Globals :=
  match a with
  | Action.toggleLanguage =>
    { g with currentLanguage := if g.currentLanguage = "fr" then "ar" else "fr" }
  | Action.showSection sectionName found =>
    if found then { g with currentSection := sectionName } else g
  | Action.updateCostBreakdownChart _ ctx chart =>
    if !ctx then g else { g with costBreakdownChart := some chart }
  | Action.saveToHistory result isoDate now =>
    { g with history := Electro.saveToHistory result isoDate now g.history }
  | Action.initializeConsumptionChart ctx chart =>
    if !ctx then g else { g with consumptionChart := some chart }
  | Action.initializeCostChart ctx chart =>
    if !ctx then g else { g with costChart := some chart }
  | Action.initializeHistory clock =>
    if g.history.calculationHistory.length = 0 then
      match sampleItems g clock sampleData 0 with
      | Except.ok items =>
        { g with history := { calculationHistory := items, electricityHistory := items } }
      | Except.error _ => g
    else g

/-- A sequence of calls of these functions, in order. -/
def run (actions : List Action) (g : Globals) : Globals :=
  actions.foldl (fun s a => a.apply s) g

/-! ## Auxiliary facts -/

theorem index_zero {α : Type} (x : α) (xs : List α) : index (x :: xs) 0 = Except.ok x := by
  simp [index]

theorem index_one {α : Type} (x y : α) (xs : List α) :
    index (x :: y :: xs) 1 = Except.ok y := by
  simp [index]

theorem index_two {α : Type} (x y z : α) (xs : List α) :
    index (x :: y :: z :: xs) 2 = Except.ok z := by
  simp [index]

/-- At or below the exemption threshold `calculateTPPAN` returns the exempt result. -/
theorem calculateTPPAN_exempt (c : ℚ) (t : Tariffs) (h : c ≤ t.tppan.exemptionThreshold) :
    calculateTPPAN c t = Except.ok
      { tppanHT := 0, tppanVAT := 0, tppanTTC := 0, breakdown := [], isExempted := true } := by
  simp [calculateTPPAN, h]

/-- Above the exemption threshold a result of `calculateTPPAN` is not exempt. -/
theorem calculateTPPAN_charged (c : ℚ) (t : Tariffs) (r : TppanResult)
    (h : ¬ c ≤ t.tppan.exemptionThreshold) (hr : calculateTPPAN c t = Except.ok r) :
    r.isExempted = false := by
  simp only [calculateTPPAN, h, if_false] at hr
  cases h0 : index t.tppan.tiers 0 with
  | error e => simp [h0, Except.bind] at hr
  | ok t0 =>
    cases h1 : index t.tppan.tiers 1 with
    | error e => simp [h0, h1, Except.bind] at hr
    | ok t1 =>
      by_cases h200 : c > 200
      · cases h2 : index t.tppan.tiers 2 with
        | error e => simp [h0, h1, h2, h200, Except.bind] at hr
        | ok t2 =>
          simp [h0, h1, h2, h200, Except.bind] at hr
          rw [← hr]
      · simp [h0, h1, h200, Except.bind] at hr
        rw [← hr]

/-- Above the threshold and above 200, with three tiers, all three are charged. -/
theorem calculateTPPAN_three (c : ℚ) (t : Tariffs) (t0 t1 t2 : TppanTier)
    (rest : List TppanTier) (ht : t.tppan.tiers = t0 :: t1 :: t2 :: rest)
    (h : ¬ c ≤ t.tppan.exemptionThreshold) (h200 : c > 200) :
    calculateTPPAN c t = Except.ok
      { tppanHT := 100 * t0.priceHT + 100 * t1.priceHT + (c - 200) * t2.priceHT
        tppanVAT := (100 * t0.priceHT + 100 * t1.priceHT + (c - 200) * t2.priceHT) * t.vatRate
        tppanTTC := (100 * t0.priceHT + 100 * t1.priceHT + (c - 200) * t2.priceHT)
          + (100 * t0.priceHT + 100 * t1.priceHT + (c - 200) * t2.priceHT) * t.vatRate
        breakdown := [
          { name := t0.name ++ " (0-100 كيلوواط ساعة)", consumption := 100,
            priceHT := t0.priceHT, cost := 100 * t0.priceHT },
          { name := t1.name ++ " (101-200 كيلوواط ساعة)", consumption := 100,
            priceHT := t1.priceHT, cost := 100 * t1.priceHT },
          { name := t2.name ++ " (>200 كيلوواط ساعة)", consumption := c - 200,
            priceHT := t2.priceHT, cost := (c - 200) * t2.priceHT }]
        isExempted := false } := by
  simp [calculateTPPAN, h, ht, index_zero, index_one, index_two, h200, Except.bind]

/-- The bill once the surtax result is known. -/
theorem calculateBillWith_eq (t : Tariffs) (p : String) (c : ℚ) (r : TppanResult)
    (h : calculateTPPAN c t = Except.ok r) :
    calculateBillWith t p c = Except.ok
      { consumption := c
        consumptionHT := (consumptionCharge c t).1
        consumptionVAT := (consumptionCharge c t).1 * t.vatRate
        consumptionTTC := (consumptionCharge c t).1 + (consumptionCharge c t).1 * t.vatRate
        fixedFeeHT := t.fixedFeeHT
        fixedFeeVAT := t.fixedFeeHT * t.vatRate
        fixedFeeTTC := t.fixedFeeHT + t.fixedFeeHT * t.vatRate
        tppanHT := r.tppanHT
        tppanVAT := r.tppanVAT
        tppanTTC := r.tppanTTC
        tppanBreakdown := r.breakdown
        tppanExempted := r.isExempted
        totalHT := (consumptionCharge c t).1 + t.fixedFeeHT + r.tppanHT
        totalVAT := (consumptionCharge c t).1 * t.vatRate + t.fixedFeeHT * t.vatRate + r.tppanVAT
        totalTTC := (consumptionCharge c t).1 + (consumptionCharge c t).1 * t.vatRate
          + (t.fixedFeeHT + t.fixedFeeHT * t.vatRate) + r.tppanTTC
        tierBreakdown := (consumptionCharge c t).2
        provider := p } := by
  simp [calculateBillWith, h, Except.bind]

/-- With three surtax tiers `calculateTPPAN` never throws. -/
theorem calculateTPPAN_ok (c : ℚ) (t : Tariffs) (t0 t1 t2 : TppanTier)
    (rest : List TppanTier) (ht : t.tppan.tiers = t0 :: t1 :: t2 :: rest) :
    ∃ r, calculateTPPAN c t = Except.ok r := by
  by_cases h : c ≤ t.tppan.exemptionThreshold
  · exact ⟨_, calculateTPPAN_exempt c t h⟩
  · by_cases h200 : c > 200
    · exact ⟨_, calculateTPPAN_three c t t0 t1 t2 rest ht h h200⟩
    · simp only [calculateTPPAN, h, ht, index_zero, index_one, h200, if_false, Except.bind]
      exact ⟨_, rfl⟩

theorem calculateTPPAN_RADEEF_ok (c : ℚ) : ∃ r, calculateTPPAN c RADEEF_TARIFFS = Except.ok r :=
  calculateTPPAN_ok c RADEEF_TARIFFS _ _ _ _ rfl

theorem calculateTPPAN_ONEE_ok (c : ℚ) : ∃ r, calculateTPPAN c ONEE_TARIFFS = Except.ok r :=
  calculateTPPAN_ok c ONEE_TARIFFS _ _ _ _ rfl

/-- The progressive loop adds to `consumptionHT` exactly the costs it appends. -/
theorem progressiveLoop_cost_sum (tiers : List Tier) (rem ht : ℚ) (bd : List TierEntry) :
    ((progressiveLoop tiers rem ht bd).2.map TierEntry.cost).sum
        - (progressiveLoop tiers rem ht bd).1
      = (bd.map TierEntry.cost).sum - ht := by
  induction tiers generalizing rem ht bd with
  | nil => simp [progressiveLoop]
  | cons tier rest ih =>
    by_cases hrem : rem ≤ 0
    · simp [progressiveLoop, hrem]
    · simp only [progressiveLoop, hrem, if_false]
      rw [ih]
      simp

/-- The breakdown costs of the consumption charge add up to the charge. -/
theorem consumptionCharge_cost_sum (c : ℚ) (t : Tariffs) :
    ((consumptionCharge c t).2.map TierEntry.cost).sum = (consumptionCharge c t).1 := by
  unfold consumptionCharge
  by_cases h : c ≤ 150
  · have := progressiveLoop_cost_sum t.progressive c 0 []
    simp only [h, if_true]
    simp at this
    linarith
  · simp only [h, if_false]
    cases getTariffForConsumption c t <;> simp

/-- Above 150, when a selective tier contains the consumption, the whole
consumption is charged at that tier's price in a single entry. -/
theorem consumptionCharge_selective (c : ℚ) (t : Tariffs) (tier : Tier) (h : 150 < c)
    (ht : getTariffForConsumption c t = some tier) :
    consumptionCharge c t = (c * tier.priceHT,
      [{ tier := { min := tier.min, max := tier.max, system := tier.system },
         consumption := c, priceHT := tier.priceHT, cost := c * tier.priceHT }]) := by
  simp [consumptionCharge, not_le.mpr h, ht]

/-- Above 150, when no selective tier contains the consumption, nothing is charged. -/
theorem consumptionCharge_gap (c : ℚ) (t : Tariffs) (h : 150 < c)
    (ht : getTariffForConsumption c t = none) :
    consumptionCharge c t = (0, []) := by
  simp [consumptionCharge, not_le.mpr h, ht]

/-! ## The claims -/

/-- C1, at the failing input: a consumption of 150.5 kWh is above 150 and lies in
no selective tier, and both bill functions return a bill whose `tierBreakdown` has
no entry (not one) and whose `consumptionHT` is 0. -/
theorem selective_no_entry_at_150_5 :
    (150 : ℚ) < 150.5 ∧
    (∃ b, calculateRADEEFBill 150.5 = Except.ok b ∧ b.tierBreakdown.length = 0
      ∧ b.consumptionHT = 0) ∧
    (∃ b, calculateONEEBill 150.5 = Except.ok b ∧ b.tierBreakdown.length = 0
      ∧ b.consumptionHT = 0) := by
  have hR : consumptionCharge 150.5 RADEEF_TARIFFS = (0, []) := by
    simp [consumptionCharge, getTariffForConsumption, RADEEF_TARIFFS, Tier.contains, Limit.ge,
      List.find?]
    norm_num
  have hO : consumptionCharge 150.5 ONEE_TARIFFS = (0, []) := by
    simp [consumptionCharge, getTariffForConsumption, ONEE_TARIFFS, Tier.contains, Limit.ge,
      List.find?]
    norm_num
  refine ⟨by norm_num, ?_, ?_⟩
  · obtain ⟨r, hr⟩ := calculateTPPAN_RADEEF_ok 150.5
    refine ⟨_, calculateBillWith_eq _ _ _ r hr, ?_, ?_⟩ <;> simp [hR]
  · obtain ⟨r, hr⟩ := calculateTPPAN_ONEE_ok 150.5
    refine ⟨_, calculateBillWith_eq _ _ _ r hr, ?_, ?_⟩ <;> simp [hO]

/-- C2, at the failing input: 210.5 kWh lies in no tier of the built-in tables
(`getTariffForConsumption` returns `null`), and the bill functions raise no error:
they return a bill with `consumptionHT = 0` and an empty `tierBreakdown`, while
the fixed fee and the surtax are still charged (`totalHT = 43.69975`). -/
theorem gap_returns_zero_charge_at_210_5 :
    getTariffForConsumption 210.5 RADEEF_TARIFFS = none ∧
    getTariffForConsumption 210.5 ONEE_TARIFFS = none ∧
    (∃ b, calculateRADEEFBill 210.5 = Except.ok b ∧ b.consumptionHT = 0
      ∧ b.tierBreakdown = [] ∧ b.totalHT = 43.69975) ∧
    (∃ b, calculateONEEBill 210.5 = Except.ok b ∧ b.consumptionHT = 0
      ∧ b.tierBreakdown = [] ∧ b.totalHT = 43.69975) := by
  have gR : getTariffForConsumption 210.5 RADEEF_TARIFFS = none := by
    simp [getTariffForConsumption, RADEEF_TARIFFS, Tier.contains, Limit.ge, List.find?]
    norm_num
  have gO : getTariffForConsumption 210.5 ONEE_TARIFFS = none := by
    simp [getTariffForConsumption, ONEE_TARIFFS, Tier.contains, Limit.ge, List.find?]
    norm_num
  have hR := consumptionCharge_gap 210.5 RADEEF_TARIFFS (by norm_num) gR
  have hO := consumptionCharge_gap 210.5 ONEE_TARIFFS (by norm_num) gO
  have tR := calculateTPPAN_three 210.5 RADEEF_TARIFFS _ _ _ _ rfl
    (by norm_num [RADEEF_TARIFFS]) (by norm_num)
  have tO := calculateTPPAN_three 210.5 ONEE_TARIFFS _ _ _ _ rfl
    (by norm_num [ONEE_TARIFFS]) (by norm_num)
  refine ⟨gR, gO, ⟨_, calculateBillWith_eq _ _ _ _ tR, ?_, ?_, ?_⟩,
    ⟨_, calculateBillWith_eq _ _ _ _ tO, ?_, ?_, ?_⟩⟩
  · simp [hR]
  · simp [hR]
  · simp [hR]; norm_num [RADEEF_TARIFFS]
  · simp [hO]
  · simp [hO]
  · simp [hO]; norm_num [ONEE_TARIFFS]

/-- C3, at the failing input: 210 < 210.5, yet the RADEEF bill for 210.5 kWh
(`totalTTC = 51.565705`) is lower than the bill for 210 kWh
(`totalTTC = 276.8398`), and likewise for ONEE (52.4397 against 281.532). -/
theorem bill_decreases_210_to_210_5 :
    (0 : ℚ) < 210 ∧ (210 : ℚ) < 210.5 ∧
    (∃ a b, calculateRADEEFBill 210 = Except.ok a ∧ calculateRADEEFBill 210.5 = Except.ok b
      ∧ a.totalTTC = 276.8398 ∧ b.totalTTC = 51.565705 ∧ b.totalTTC < a.totalTTC) ∧
    (∃ a b, calculateONEEBill 210 = Except.ok a ∧ calculateONEEBill 210.5 = Except.ok b
      ∧ a.totalTTC = 281.532 ∧ b.totalTTC = 52.4397 ∧ b.totalTTC < a.totalTTC) := by
  have gR : getTariffForConsumption 210.5 RADEEF_TARIFFS = none := by
    simp [getTariffForConsumption, RADEEF_TARIFFS, Tier.contains, Limit.ge, List.find?]
    norm_num
  have gO : getTariffForConsumption 210.5 ONEE_TARIFFS = none := by
    simp [getTariffForConsumption, ONEE_TARIFFS, Tier.contains, Limit.ge, List.find?]
    norm_num
  have gR0 : getTariffForConsumption 210 RADEEF_TARIFFS = some
      { min := 151, max := Limit.fin 210, priceHT := 0.9095, system := "انتقائي" } := by
    simp [getTariffForConsumption, RADEEF_TARIFFS, Tier.contains, Limit.ge, List.find?]
    norm_num
  have gO0 : getTariffForConsumption 210 ONEE_TARIFFS = some
      { min := 151, max := Limit.fin 210, priceHT := 0.9095, system := "انتقائي" } := by
    simp [getTariffForConsumption, ONEE_TARIFFS, Tier.contains, Limit.ge, List.find?]
    norm_num
  have hR := consumptionCharge_gap 210.5 RADEEF_TARIFFS (by norm_num) gR
  have hO := consumptionCharge_gap 210.5 ONEE_TARIFFS (by norm_num) gO
  have hR0 := consumptionCharge_selective 210 RADEEF_TARIFFS _ (by norm_num) gR0
  have hO0 := consumptionCharge_selective 210 ONEE_TARIFFS _ (by norm_num) gO0
  have tR := calculateTPPAN_three 210.5 RADEEF_TARIFFS _ _ _ _ rfl
    (by norm_num [RADEEF_TARIFFS]) (by norm_num)
  have tO := calculateTPPAN_three 210.5 ONEE_TARIFFS _ _ _ _ rfl
    (by norm_num [ONEE_TARIFFS]) (by norm_num)
  have tR0 := calculateTPPAN_three 210 RADEEF_TARIFFS _ _ _ _ rfl
    (by norm_num [RADEEF_TARIFFS]) (by norm_num)
  have tO0 := calculateTPPAN_three 210 ONEE_TARIFFS _ _ _ _ rfl
    (by norm_num [ONEE_TARIFFS]) (by norm_num)
  refine ⟨by norm_num, by norm_num,
    ⟨_, _, calculateBillWith_eq _ _ _ _ tR0, calculateBillWith_eq _ _ _ _ tR, ?_, ?_, ?_⟩,
    ⟨_, _, calculateBillWith_eq _ _ _ _ tO0, calculateBillWith_eq _ _ _ _ tO, ?_, ?_, ?_⟩⟩
  · simp [hR0]; norm_num [RADEEF_TARIFFS]
  · simp [hR]; norm_num [RADEEF_TARIFFS]
  · simp [hR, hR0]; norm_num [RADEEF_TARIFFS]
  · simp [hO0]; norm_num [ONEE_TARIFFS]
  · simp [hO]; norm_num [ONEE_TARIFFS]
  · simp [hO, hO0]; norm_num [ONEE_TARIFFS]

/-- C4, counterexample: at the non-positive consumptions 0 and -5 the bill
functions do not fail; they return a bill (here the fixed fee alone,
`totalHT = 20.74`). -/
theorem nonpositive_consumption_returns_bill :
    (0 : ℚ) ≤ 0 ∧ (-5 : ℚ) ≤ 0 ∧
    (∃ b, calculateRADEEFBill 0 = Except.ok b ∧ b.totalHT = 20.74) ∧
    (∃ b, calculateONEEBill (-5) = Except.ok b ∧ b.totalHT = 20.74) := by
  have hR : consumptionCharge 0 RADEEF_TARIFFS = (0, []) := by
    simp [consumptionCharge, progressiveLoop, RADEEF_TARIFFS]
  have hO : consumptionCharge (-5) ONEE_TARIFFS = (0, []) := by
    have h1 : (-5 : ℚ) ≤ 150 := by norm_num
    have h2 : (-5 : ℚ) ≤ 0 := by norm_num
    simp [consumptionCharge, progressiveLoop, ONEE_TARIFFS, h1, h2]
  have tR := calculateTPPAN_exempt 0 RADEEF_TARIFFS (by norm_num [RADEEF_TARIFFS])
  have tO := calculateTPPAN_exempt (-5) ONEE_TARIFFS (by norm_num [ONEE_TARIFFS])
  refine ⟨le_refl _, by norm_num, ⟨_, calculateBillWith_eq _ _ _ _ tR, ?_⟩,
    ⟨_, calculateBillWith_eq _ _ _ _ tO, ?_⟩⟩
  · simp [hR]; norm_num [RADEEF_TARIFFS]
  · simp [hO]; norm_num [ONEE_TARIFFS]

/-- C4, amended: the bill functions validate nothing. For every consumption
`c ≤ 0` both return a bill for `c`, with no consumption charge and no tier entry;
the rejection of an input that is `NaN`, zero or negative is the guard of the
caller `performCalculation`, which returns before any bill function is called. -/
theorem nonpositive_bill_and_caller_guard (c : ℚ) (provider : String) (h : c ≤ 0) :
    (∃ b, calculateRADEEFBill c = Except.ok b ∧ b.consumption = c
      ∧ b.consumptionHT = 0 ∧ b.tierBreakdown = []) ∧
    (∃ b, calculateONEEBill c = Except.ok b ∧ b.consumption = c
      ∧ b.consumptionHT = 0 ∧ b.tierBreakdown = []) ∧
    performCalculation (some c) provider = Outcome.rejected ∧
    performCalculation none provider = Outcome.rejected := by
  have h150 : c ≤ 150 := le_trans h (by norm_num)
  have hR : consumptionCharge c RADEEF_TARIFFS = (0, []) := by
    simp [consumptionCharge, progressiveLoop, RADEEF_TARIFFS, h, h150]
  have hO : consumptionCharge c ONEE_TARIFFS = (0, []) := by
    simp [consumptionCharge, progressiveLoop, ONEE_TARIFFS, h, h150]
  obtain ⟨r, hr⟩ := calculateTPPAN_RADEEF_ok c
  obtain ⟨o, ho⟩ := calculateTPPAN_ONEE_ok c
  refine ⟨⟨_, calculateBillWith_eq _ _ _ r hr, rfl, ?_, ?_⟩,
    ⟨_, calculateBillWith_eq _ _ _ o ho, rfl, ?_, ?_⟩, ?_, rfl⟩
  · simp [hR]
  · simp [hR]
  · simp [hO]
  · simp [hO]
  · simp [performCalculation, h]

/-- Witness of `nonpositive_bill_and_caller_guard` at `c = -5`. -/
theorem nonpositive_bill_and_caller_guard_witness :
    (-5 : ℚ) ≤ 0 ∧
    ((∃ b, calculateRADEEFBill (-5) = Except.ok b ∧ b.consumption = -5
      ∧ b.consumptionHT = 0 ∧ b.tierBreakdown = []) ∧
    (∃ b, calculateONEEBill (-5) = Except.ok b ∧ b.consumption = -5
      ∧ b.consumptionHT = 0 ∧ b.tierBreakdown = []) ∧
    performCalculation (some (-5)) "radeef" = Outcome.rejected ∧
    performCalculation none "radeef" = Outcome.rejected) :=
  ⟨by norm_num, nonpositive_bill_and_caller_guard (-5) "radeef" (by norm_num)⟩

/-- C5: for every consumption `c` with `0 < c ≤ 150`, both bill functions return
a bill whose `tierBreakdown` is not empty and whose `cost` fields add up to its
`consumptionHT`. -/
theorem progressive_cost_sum (c : ℚ) (h0 : 0 < c) (h150 : c ≤ 150) :
    (∃ b, calculateRADEEFBill c = Except.ok b ∧ b.tierBreakdown ≠ []
      ∧ (b.tierBreakdown.map TierEntry.cost).sum = b.consumptionHT) ∧
    (∃ b, calculateONEEBill c = Except.ok b ∧ b.tierBreakdown ≠ []
      ∧ (b.tierBreakdown.map TierEntry.cost).sum = b.consumptionHT) := by
  obtain ⟨r, hr⟩ := calculateTPPAN_RADEEF_ok c
  obtain ⟨o, ho⟩ := calculateTPPAN_ONEE_ok c
  refine ⟨⟨_, calculateBillWith_eq _ _ _ r hr, ?_, consumptionCharge_cost_sum c _⟩,
    ⟨_, calculateBillWith_eq _ _ _ o ho, ?_, consumptionCharge_cost_sum c _⟩⟩
  · simp only [consumptionCharge, h150, if_true, RADEEF_TARIFFS, progressiveLoop,
      not_le.mpr h0, if_false]
    split_ifs <;> simp
  · simp only [consumptionCharge, h150, if_true, ONEE_TARIFFS, progressiveLoop,
      not_le.mpr h0, if_false]
    split_ifs <;> simp

/-- Witness of `progressive_cost_sum` at `c = 120`. -/
theorem progressive_cost_sum_witness :
    (0 : ℚ) < 120 ∧ (120 : ℚ) ≤ 150 ∧
    ((∃ b, calculateRADEEFBill 120 = Except.ok b ∧ b.tierBreakdown ≠ []
      ∧ (b.tierBreakdown.map TierEntry.cost).sum = b.consumptionHT) ∧
    (∃ b, calculateONEEBill 120 = Except.ok b ∧ b.tierBreakdown ≠ []
      ∧ (b.tierBreakdown.map TierEntry.cost).sum = b.consumptionHT)) :=
  ⟨by norm_num, by norm_num, progressive_cost_sum 120 (by norm_num) (by norm_num)⟩

/-- Above the threshold but not above 200, with two tiers, only the two fixed
quantities are charged. -/
theorem calculateTPPAN_two (c : ℚ) (t : Tariffs) (t0 t1 : TppanTier)
    (rest : List TppanTier) (ht : t.tppan.tiers = t0 :: t1 :: rest)
    (h : ¬ c ≤ t.tppan.exemptionThreshold) (h200 : ¬ c > 200) :
    calculateTPPAN c t = Except.ok
      { tppanHT := 100 * t0.priceHT + 100 * t1.priceHT
        tppanVAT := (100 * t0.priceHT + 100 * t1.priceHT) * t.vatRate
        tppanTTC := (100 * t0.priceHT + 100 * t1.priceHT)
          + (100 * t0.priceHT + 100 * t1.priceHT) * t.vatRate
        breakdown := [
          { name := t0.name ++ " (0-100 كيلوواط ساعة)", consumption := 100,
            priceHT := t0.priceHT, cost := 100 * t0.priceHT },
          { name := t1.name ++ " (101-200 كيلوواط ساعة)", consumption := 100,
            priceHT := t1.priceHT, cost := 100 * t1.priceHT }]
        isExempted := false } := by
  simp [calculateTPPAN, h, ht, index_zero, index_one, h200, Except.bind]

/-- C6: for every table and every consumption `c`, `calculateTPPAN` returns a
result with `isExempted = true` exactly when `c ≤ tppan.exemptionThreshold`; in
that case it returns `tppanHT = tppanVAT = tppanTTC = 0` with an empty breakdown,
and otherwise no result it returns is exempt. -/
theorem calculateTPPAN_isExempted_iff (c : ℚ) (t : Tariffs) :
    ((∃ r, calculateTPPAN c t = Except.ok r ∧ r.isExempted = true)
      ↔ c ≤ t.tppan.exemptionThreshold) ∧
    (∀ r, calculateTPPAN c t = Except.ok r →
      (r.isExempted = true ↔ c ≤ t.tppan.exemptionThreshold)) ∧
    (∀ r, calculateTPPAN c t = Except.ok r → r.isExempted = true →
      r.tppanHT = 0 ∧ r.tppanVAT = 0 ∧ r.tppanTTC = 0 ∧ r.breakdown = []) := by
  by_cases h : c ≤ t.tppan.exemptionThreshold
  · have he := calculateTPPAN_exempt c t h
    refine ⟨⟨fun _ => h, fun _ => ⟨_, he, rfl⟩⟩, ?_, ?_⟩
    · intro r hr
      rw [he] at hr
      cases hr
      simp [h]
    · intro r hr _
      rw [he] at hr
      cases hr
      exact ⟨rfl, rfl, rfl, rfl⟩
  · refine ⟨⟨?_, fun h2 => absurd h2 h⟩, ?_, ?_⟩
    · rintro ⟨r, hr, hex⟩
      have := calculateTPPAN_charged c t r h hr
      simp [this] at hex
    · intro r hr
      have := calculateTPPAN_charged c t r h hr
      simp [this, h]
    · intro r hr hex
      have := calculateTPPAN_charged c t r h hr
      simp [this] at hex

/-- Witness of `calculateTPPAN_isExempted_iff` at `c = 100` and the RADEEF table. -/
theorem calculateTPPAN_isExempted_iff_witness :
    ∃ r, calculateTPPAN 100 RADEEF_TARIFFS = Except.ok r ∧ r.isExempted = true ∧
      r.tppanHT = 0 ∧ r.tppanVAT = 0 ∧ r.tppanTTC = 0 ∧ r.breakdown = [] := by
  have hthr : (100 : ℚ) ≤ RADEEF_TARIFFS.tppan.exemptionThreshold := by
    norm_num [RADEEF_TARIFFS]
  obtain ⟨r, hr, hex⟩ := (calculateTPPAN_isExempted_iff 100 RADEEF_TARIFFS).1.mpr hthr
  exact ⟨r, hr, hex, (calculateTPPAN_isExempted_iff 100 RADEEF_TARIFFS).2.2 r hr hex⟩

/-- C7, counterexample: with a table of two surtax tiers, at `c = 201` (above the
threshold and above 200) `calculateTPPAN` reads `tiers[2].priceHT` of a missing
tier and throws; it returns no breakdown. -/
theorem calculateTPPAN_two_tiers_throws :
    (201 : ℚ) > twoSurtaxTiers.tppan.exemptionThreshold ∧ (201 : ℚ) > 200 ∧
    calculateTPPAN 201 twoSurtaxTiers = Except.error JSError.typeError := by
  refine ⟨by norm_num [twoSurtaxTiers, RADEEF_TARIFFS], by norm_num, ?_⟩
  simp [calculateTPPAN, twoSurtaxTiers, RADEEF_TARIFFS, index, Except.bind]
  norm_num

/-- C7, amended: for every table with at least three surtax tiers `t0, t1, t2`
and every consumption `c` above the exemption threshold and above 200,
`calculateTPPAN` returns a non-exempt result with exactly three breakdown entries,
in order, of quantities 100, 100 and `c − 200` and costs `100 × t0.priceHT`,
`100 × t1.priceHT` and `(c − 200) × t2.priceHT`, and `tppanHT` is the sum of the
three costs. -/
theorem calculateTPPAN_three_entries (c : ℚ) (t : Tariffs) (t0 t1 t2 : TppanTier)
    (rest : List TppanTier) (ht : t.tppan.tiers = t0 :: t1 :: t2 :: rest)
    (hthr : c > t.tppan.exemptionThreshold) (h200 : c > 200) :
    ∃ r, calculateTPPAN c t = Except.ok r ∧ r.isExempted = false ∧
      r.breakdown.length = 3 ∧
      r.breakdown.map TppanEntry.consumption = [100, 100, c - 200] ∧
      r.breakdown.map TppanEntry.priceHT = [t0.priceHT, t1.priceHT, t2.priceHT] ∧
      r.breakdown.map TppanEntry.cost
        = [100 * t0.priceHT, 100 * t1.priceHT, (c - 200) * t2.priceHT] ∧
      r.tppanHT = 100 * t0.priceHT + 100 * t1.priceHT + (c - 200) * t2.priceHT ∧
      r.tppanHT = (r.breakdown.map TppanEntry.cost).sum := by
  refine ⟨_, calculateTPPAN_three c t t0 t1 t2 rest ht (not_le.mpr hthr) h200, rfl, rfl, rfl,
    rfl, rfl, rfl, ?_⟩
  simp
  ring

/-- Witness of `calculateTPPAN_three_entries` at `c = 201` and the RADEEF table:
the third cost is `1 × 0.1695`. -/
theorem calculateTPPAN_three_entries_witness :
    ∃ r, calculateTPPAN 201 RADEEF_TARIFFS = Except.ok r ∧ r.isExempted = false ∧
      r.breakdown.length = 3 ∧
      r.breakdown.map TppanEntry.consumption = [100, 100, 201 - 200] ∧
      r.breakdown.map TppanEntry.priceHT = [0.0847, 0.1271, 0.1695] ∧
      r.breakdown.map TppanEntry.cost
        = [100 * 0.0847, 100 * 0.1271, (201 - 200) * 0.1695] ∧
      r.tppanHT = 100 * 0.0847 + 100 * 0.1271 + (201 - 200) * 0.1695 ∧
      r.tppanHT = (r.breakdown.map TppanEntry.cost).sum :=
  calculateTPPAN_three_entries 201 RADEEF_TARIFFS
    { min := 0, max := Limit.fin 100, priceHT := 0.0847, name := "الشريحة 1" }
    { min := 101, max := Limit.fin 200, priceHT := 0.1271, name := "الشريحة 2" }
    { min := 201, max := Limit.infinity, priceHT := 0.1695, name := "الشريحة 3" }
    [] rfl (by norm_num [RADEEF_TARIFFS]) (by norm_num)

/-- C8, counterexample: with the exemption threshold set to 150,
`calculateTPPAN(200, table)` is not exempt and charges `tppanHT = 21.18`. -/
theorem calculateTPPAN_200_not_exempt :
    ∃ r, calculateTPPAN 200 threshold150 = Except.ok r ∧ r.isExempted = false ∧
      r.tppanHT = 21.18 := by
  refine ⟨_, calculateTPPAN_two 200 threshold150 _ _ _ rfl
    (by norm_num [threshold150, RADEEF_TARIFFS]) (by norm_num), rfl, ?_⟩
  norm_num [RADEEF_TARIFFS]

/-- C8, amended: for every table whose exemption threshold is at least 200,
`calculateTPPAN(200, table)` is exempt and its `tppanHT` is 0. -/
theorem calculateTPPAN_200_exempt (t : Tariffs) (h : 200 ≤ t.tppan.exemptionThreshold) :
    ∃ r, calculateTPPAN 200 t = Except.ok r ∧ r.isExempted = true ∧ r.tppanHT = 0 :=
  ⟨_, calculateTPPAN_exempt 200 t h, rfl, rfl⟩

/-- Witness of `calculateTPPAN_200_exempt` at the RADEEF table. -/
theorem calculateTPPAN_200_exempt_witness :
    (200 : ℚ) ≤ RADEEF_TARIFFS.tppan.exemptionThreshold ∧
    ∃ r, calculateTPPAN 200 RADEEF_TARIFFS = Except.ok r ∧ r.isExempted = true ∧
      r.tppanHT = 0 :=
  ⟨by norm_num [RADEEF_TARIFFS],
    calculateTPPAN_200_exempt RADEEF_TARIFFS (by norm_num [RADEEF_TARIFFS])⟩

/-- C9: `calculateRADEEFBill(250)` returns a bill with a single tier entry, for
the selective tier 211–310 at 0.9895 charging all 250 kWh, with
`consumptionHT = 247.375`, `tppanHT = 29.655` (costs 8.47, 12.71 and 8.475),
`tppanVAT = 5.3379`, `totalHT = 297.77`, `totalVAT = 53.5986` and
`totalTTC = 351.3686`. -/
theorem calculateRADEEFBill_250 :
    ∃ b, calculateRADEEFBill 250 = Except.ok b ∧
      b.tierBreakdown = [
        { tier := { min := 211, max := Limit.fin 310, system := "انتقائي" },
          consumption := 250, priceHT := 0.9895, cost := 247.375 }] ∧
      b.consumptionHT = 247.375 ∧
      b.fixedFeeHT = 20.74 ∧
      b.tppanBreakdown.map TppanEntry.cost = [8.47, 12.71, 8.475] ∧
      b.tppanHT = 29.655 ∧
      b.tppanVAT = 5.3379 ∧
      b.tppanExempted = false ∧
      b.totalHT = 297.77 ∧
      b.totalVAT = 53.5986 ∧
      b.totalTTC = 351.3686 := by
  have g : getTariffForConsumption 250 RADEEF_TARIFFS = some
      { min := 211, max := Limit.fin 310, priceHT := 0.9895, system := "انتقائي" } := by
    simp [getTariffForConsumption, RADEEF_TARIFFS, Tier.contains, Limit.ge, List.find?]
    norm_num
  have hc := consumptionCharge_selective 250 RADEEF_TARIFFS _ (by norm_num) g
  have ht := calculateTPPAN_three 250 RADEEF_TARIFFS _ _ _ _ rfl
    (by norm_num [RADEEF_TARIFFS]) (by norm_num)
  refine ⟨_, calculateBillWith_eq _ _ _ _ ht, ?_, ?_, ?_, ?_, ?_, ?_, ?_, ?_, ?_, ?_⟩
  · simp [hc]; norm_num
  · simp [hc]; norm_num
  · norm_num [RADEEF_TARIFFS]
  · simp; norm_num [RADEEF_TARIFFS]
  · simp; norm_num [RADEEF_TARIFFS]
  · simp; norm_num [RADEEF_TARIFFS]
  · rfl
  · simp [hc]; norm_num [RADEEF_TARIFFS]
  · simp [hc]; norm_num [RADEEF_TARIFFS]
  · simp [hc]; norm_num [RADEEF_TARIFFS]

/-- C10: for every consumption `c`, both bill functions return a bill with
`totalHT = consumptionHT + fixedFeeHT + tppanHT`,
`totalVAT = consumptionVAT + fixedFeeVAT + tppanVAT` and
`totalTTC = consumptionTTC + fixedFeeTTC + tppanTTC`. -/
theorem totals_are_component_sums (c : ℚ) :
    (∃ b, calculateRADEEFBill c = Except.ok b ∧
      b.totalHT = b.consumptionHT + b.fixedFeeHT + b.tppanHT ∧
      b.totalVAT = b.consumptionVAT + b.fixedFeeVAT + b.tppanVAT ∧
      b.totalTTC = b.consumptionTTC + b.fixedFeeTTC + b.tppanTTC) ∧
    (∃ b, calculateONEEBill c = Except.ok b ∧
      b.totalHT = b.consumptionHT + b.fixedFeeHT + b.tppanHT ∧
      b.totalVAT = b.consumptionVAT + b.fixedFeeVAT + b.tppanVAT ∧
      b.totalTTC = b.consumptionTTC + b.fixedFeeTTC + b.tppanTTC) := by
  obtain ⟨r, hr⟩ := calculateTPPAN_RADEEF_ok c
  obtain ⟨o, ho⟩ := calculateTPPAN_ONEE_ok c
  exact ⟨⟨_, calculateBillWith_eq _ _ _ r hr, rfl, rfl, rfl⟩,
    ⟨_, calculateBillWith_eq _ _ _ o ho, rfl, rfl, rfl⟩⟩

/-- A tier returned by `getTariffForConsumption` contains the consumption and
belongs to the list that was searched. -/
theorem getTariffForConsumption_some (c : ℚ) (t : Tariffs) (tier : Tier)
    (h : getTariffForConsumption c t = some tier) :
    tier.contains c = true ∧
      ((c ≤ 150 ∧ tier ∈ t.progressive) ∨ (150 < c ∧ tier ∈ t.selective)) := by
  unfold getTariffForConsumption at h
  by_cases h150 : c ≤ 150
  · simp only [h150, if_true] at h
    exact ⟨@List.find?_some Tier (fun x => Tier.contains x c) tier _ h, Or.inl ⟨h150, List.mem_of_find?_eq_some h⟩⟩
  · simp only [h150, if_false] at h
    exact ⟨@List.find?_some Tier (fun x => Tier.contains x c) tier _ h, Or.inr ⟨not_le.mp h150, List.mem_of_find?_eq_some h⟩⟩

/-- The consumption charge of a table with the built-in tiers, by region. -/
theorem consumptionCharge_regions (t : Tariffs) (c : ℚ)
    (hp : t.progressive = RADEEF_TARIFFS.progressive)
    (hs : t.selective = RADEEF_TARIFFS.selective) (h0 : 0 ≤ c)
    (hcov : c ≤ 150 ∨ getTariffForConsumption c t ≠ none) :
    (c ≤ 101 ∧ (consumptionCharge c t).1 = c * 0.7636) ∨
    (101 < c ∧ c ≤ 150 ∧ (consumptionCharge c t).1 = 101 * 0.7636 + (c - 101) * 0.9095) ∨
    (151 ≤ c ∧ c ≤ 210 ∧ (consumptionCharge c t).1 = c * 0.9095) ∨
    (211 ≤ c ∧ c ≤ 310 ∧ (consumptionCharge c t).1 = c * 0.9895) ∨
    (311 ≤ c ∧ c ≤ 510 ∧ (consumptionCharge c t).1 = c * 1.1709) ∨
    (511 ≤ c ∧ (consumptionCharge c t).1 = c * 1.3524) := by
  by_cases h150 : c ≤ 150
  · rcases eq_or_lt_of_le h0 with h00 | hpos
    · left
      subst h00
      simp [consumptionCharge, hp, RADEEF_TARIFFS, progressiveLoop]
    · by_cases h101 : c ≤ 101
      · left
        refine ⟨h101, ?_⟩
        have hm : min c 101 = c := min_eq_left h101
        simp [consumptionCharge, h150, hp, RADEEF_TARIFFS, progressiveLoop, not_le.mpr hpos,
          Limit.minWidth]
        norm_num [hm, h101]
      · right; left
        have h101' : 101 < c := not_le.mp h101
        refine ⟨h101', h150, ?_⟩
        have hm : min c 101 = 101 := min_eq_right h101'.le
        have hm2 : min (c - 101) 50 = c - 101 := min_eq_left (by linarith)
        simp [consumptionCharge, h150, hp, RADEEF_TARIFFS, progressiveLoop, not_le.mpr hpos,
          Limit.minWidth]
        norm_num [hm, hm2, h101]
  · have h150' : 150 < c := not_le.mp h150
    have hcov2 : getTariffForConsumption c t ≠ none := by
      rcases hcov with h | h
      · exact absurd h h150
      · exact h
    obtain ⟨tier, htier⟩ := Option.ne_none_iff_exists'.mp hcov2
    have hch := consumptionCharge_selective c t tier h150' htier
    obtain ⟨hcont, hmem⟩ := getTariffForConsumption_some c t tier htier
    have hmem2 : tier ∈ RADEEF_TARIFFS.selective := by
      rcases hmem with ⟨h, _⟩ | ⟨_, h⟩
      · exact absurd h h150
      · rw [← hs]; exact h
    simp only [RADEEF_TARIFFS, List.mem_cons, List.mem_singleton] at hmem2
    rw [hch]
    have hnil : tier ∉ ([] : List Tier) := List.not_mem_nil _
    rcases hmem2 with rfl | rfl | rfl | rfl | h
    · simp [Tier.contains, Limit.ge] at hcont
      right; right; left
      exact ⟨hcont.1, hcont.2, rfl⟩
    · simp [Tier.contains, Limit.ge] at hcont
      right; right; right; left
      exact ⟨hcont.1, hcont.2, rfl⟩
    · simp [Tier.contains, Limit.ge] at hcont
      right; right; right; right; left
      exact ⟨hcont.1, hcont.2, rfl⟩
    · simp [Tier.contains, Limit.ge] at hcont
      right; right; right; right; right
      exact ⟨hcont, rfl⟩
    · exact absurd h hnil

/-- The surtax of a table with the built-in surtax configuration, by region. -/
theorem calculateTPPAN_regions (t : Tariffs) (c : ℚ) (htp : t.tppan = RADEEF_TARIFFS.tppan) :
    ∃ r, calculateTPPAN c t = Except.ok r ∧
      r.tppanVAT = r.tppanHT * t.vatRate ∧ r.tppanTTC = r.tppanHT + r.tppanVAT ∧
      ((c ≤ 200 ∧ r.tppanHT = 0) ∨ (200 < c ∧ r.tppanHT = 21.18 + (c - 200) * 0.1695)) := by
  have hthr : t.tppan.exemptionThreshold = 200 := by rw [htp]; rfl
  by_cases h : c ≤ 200
  · refine ⟨_, calculateTPPAN_exempt c t (by rw [hthr]; exact h), ?_, ?_, Or.inl ⟨h, rfl⟩⟩ <;> simp
  · have h' : 200 < c := not_le.mp h
    refine ⟨_, calculateTPPAN_three c t _ _ _ _ (by rw [htp]; rfl) (by rw [hthr]; exact h) h',
      rfl, rfl, Or.inr ⟨h', ?_⟩⟩
    norm_num

/-- Outside the gaps between the selective bands the bill grows strictly with the
consumption: for a table with the built-in tiers and surtax and a non-negative
VAT rate, and `0 ≤ a < b` where each of `a`, `b` is at most 150 or lies in a
selective tier, the bill for `a` has a smaller `totalTTC` than the bill for `b`. -/
theorem totalTTC_lt_of_covered (t : Tariffs) (p : String)
    (hp : t.progressive = RADEEF_TARIFFS.progressive)
    (hs : t.selective = RADEEF_TARIFFS.selective)
    (htp : t.tppan = RADEEF_TARIFFS.tppan) (hv : 0 ≤ t.vatRate)
    (a b : ℚ) (h0 : 0 ≤ a) (hab : a < b)
    (ha : a ≤ 150 ∨ getTariffForConsumption a t ≠ none)
    (hb : b ≤ 150 ∨ getTariffForConsumption b t ≠ none) :
    ∃ x y, calculateBillWith t p a = Except.ok x ∧ calculateBillWith t p b = Except.ok y ∧
      x.totalTTC < y.totalTTC := by
  obtain ⟨ra, hra, hva, hta, hRa⟩ := calculateTPPAN_regions t a htp
  obtain ⟨rb, hrb, hvb, htb, hRb⟩ := calculateTPPAN_regions t b htp
  have hA := consumptionCharge_regions t a hp hs h0 ha
  have hB := consumptionCharge_regions t b hp hs (le_trans h0 hab.le) hb
  refine ⟨_, _, calculateBillWith_eq t p a ra hra, calculateBillWith_eq t p b rb hrb, ?_⟩
  have hT : ra.tppanHT ≤ rb.tppanHT := by
    rcases hRa with ⟨_, e1⟩ | ⟨_, e1⟩ <;> rcases hRb with ⟨_, e2⟩ | ⟨_, e2⟩ <;>
      rw [e1, e2] <;> linarith
  have hC : (consumptionCharge a t).1 < (consumptionCharge b t).1 := by
    rcases hA with ⟨_, e1⟩ | ⟨_, _, e1⟩ | ⟨_, _, e1⟩ | ⟨_, _, e1⟩ | ⟨_, _, e1⟩ | ⟨_, e1⟩ <;>
    rcases hB with ⟨_, e2⟩ | ⟨_, _, e2⟩ | ⟨_, _, e2⟩ | ⟨_, _, e2⟩ | ⟨_, _, e2⟩ | ⟨_, e2⟩ <;>
      rw [e1, e2] <;> linarith
  simp only
  rw [hta, htb, hva, hvb]
  nlinarith [mul_nonneg hv (sub_nonneg.mpr hT), mul_nonneg hv (sub_nonneg.mpr hC.le)]

/-- The progressive walk of the built-in tiers up to 101 kWh: one entry, for the
first tier. -/
theorem consumptionCharge_progressive_low (t : Tariffs) (c : ℚ)
    (hp : t.progressive = RADEEF_TARIFFS.progressive) (h0 : 0 < c) (h101 : c ≤ 101) :
    consumptionCharge c t = (c * 0.7636,
      [{ tier := { min := 0, max := Limit.fin 100, system := "تدريجي" },
         consumption := c, priceHT := 0.7636, cost := c * 0.7636 }]) := by
  have h150 : c ≤ 150 := le_trans h101 (by norm_num)
  have hm : min c 101 = c := min_eq_left h101
  simp [consumptionCharge, h150, hp, RADEEF_TARIFFS, progressiveLoop, not_le.mpr h0,
    Limit.minWidth]
  norm_num [hm, h101]

/-- The progressive walk of the built-in tiers above 101 kWh: 101 kWh in the
first tier, the rest in the second. -/
theorem consumptionCharge_progressive_high (t : Tariffs) (c : ℚ)
    (hp : t.progressive = RADEEF_TARIFFS.progressive) (h101 : 101 < c) (h150 : c ≤ 150) :
    consumptionCharge c t = (101 * 0.7636 + (c - 101) * 0.9095,
      [{ tier := { min := 0, max := Limit.fin 100, system := "تدريجي" },
         consumption := 101, priceHT := 0.7636, cost := 101 * 0.7636 },
       { tier := { min := 101, max := Limit.fin 150, system := "تدريجي" },
         consumption := c - 101, priceHT := 0.9095, cost := (c - 101) * 0.9095 }]) := by
  have h0 : 0 < c := lt_trans (by norm_num) h101
  have hm : min c 101 = 101 := min_eq_right h101.le
  have hm2 : min (c - 101) 50 = c - 101 := min_eq_left (by linarith)
  simp [consumptionCharge, h150, hp, RADEEF_TARIFFS, progressiveLoop, not_le.mpr h0,
    Limit.minWidth]
  norm_num [hm, hm2, not_le.mpr h101]

/-- Every result of `calculateTPPAN` has `tppanVAT = tppanHT × vatRate` and
`tppanTTC = tppanHT + tppanVAT`. -/
theorem calculateTPPAN_vat (c : ℚ) (t : Tariffs) (r : TppanResult)
    (hr : calculateTPPAN c t = Except.ok r) :
    r.tppanVAT = r.tppanHT * t.vatRate ∧ r.tppanTTC = r.tppanHT + r.tppanVAT := by
  by_cases h : c ≤ t.tppan.exemptionThreshold
  · rw [calculateTPPAN_exempt c t h] at hr
    cases hr
    simp
  · simp only [calculateTPPAN, h, if_false] at hr
    cases h0 : index t.tppan.tiers 0 with
    | error e => simp [h0, Except.bind] at hr
    | ok t0 =>
      cases h1 : index t.tppan.tiers 1 with
      | error e => simp [h0, h1, Except.bind] at hr
      | ok t1 =>
        by_cases h200 : c > 200
        · cases h2 : index t.tppan.tiers 2 with
          | error e => simp [h0, h1, h2, h200, Except.bind] at hr
          | ok t2 =>
            simp [h0, h1, h2, h200, Except.bind] at hr
            rw [← hr]
            exact ⟨rfl, rfl⟩
        · simp [h0, h1, h200, Except.bind] at hr
          rw [← hr]
          exact ⟨rfl, rfl⟩

/-- C11: for every consumption `c`, both bill functions return a bill with
`totalVAT = totalHT × vatRate` (0.18 for RADEEF, 0.20 for ONEE) and
`totalTTC = totalHT + totalVAT = totalHT × (1 + vatRate)`. -/
theorem total_vat_is_rate_of_total (c : ℚ) :
    (∃ b, calculateRADEEFBill c = Except.ok b ∧
      b.totalVAT = b.totalHT * 0.18 ∧ b.totalTTC = b.totalHT + b.totalVAT ∧
      b.totalTTC = b.totalHT * (1 + 0.18)) ∧
    (∃ b, calculateONEEBill c = Except.ok b ∧
      b.totalVAT = b.totalHT * 0.20 ∧ b.totalTTC = b.totalHT + b.totalVAT ∧
      b.totalTTC = b.totalHT * (1 + 0.20)) := by
  obtain ⟨r, hr⟩ := calculateTPPAN_RADEEF_ok c
  obtain ⟨o, ho⟩ := calculateTPPAN_ONEE_ok c
  obtain ⟨hr1, hr2⟩ := calculateTPPAN_vat c _ r hr
  obtain ⟨ho1, ho2⟩ := calculateTPPAN_vat c _ o ho
  have vR : RADEEF_TARIFFS.vatRate = 0.18 := rfl
  have vO : ONEE_TARIFFS.vatRate = 0.20 := rfl
  refine ⟨⟨_, calculateBillWith_eq _ _ _ r hr, ?_, ?_, ?_⟩,
    ⟨_, calculateBillWith_eq _ _ _ o ho, ?_, ?_, ?_⟩⟩
  · simp only [hr1, vR]; ring
  · simp only [hr2, hr1, vR]; ring
  · simp only [hr2, hr1, vR]; ring
  · simp only [ho1, vO]; ring
  · simp only [ho2, ho1, vO]; ring
  · simp only [ho2, ho1, vO]; ring

/-- C12: for every table and every consumption `c`, every result of
`calculateTPPAN(c, table)` has `tppanVAT = tppanHT × table.vatRate` and
`tppanTTC = tppanHT + tppanVAT`; a result exists in the exempt case
(`c ≤ exemptionThreshold`, where the three amounts are 0) and, in the charged
case, whenever the table has three surtax tiers. -/
theorem calculateTPPAN_vat_relations (c : ℚ) (t : Tariffs) :
    (∀ r, calculateTPPAN c t = Except.ok r →
      r.tppanVAT = r.tppanHT * t.vatRate ∧ r.tppanTTC = r.tppanHT + r.tppanVAT) ∧
    (c ≤ t.tppan.exemptionThreshold → ∃ r, calculateTPPAN c t = Except.ok r ∧
      r.isExempted = true ∧ r.tppanHT = 0 ∧
      r.tppanVAT = r.tppanHT * t.vatRate ∧ r.tppanTTC = r.tppanHT + r.tppanVAT) ∧
    (∀ t0 t1 t2 rest, t.tppan.tiers = t0 :: t1 :: t2 :: rest →
      ∃ r, calculateTPPAN c t = Except.ok r ∧
        r.tppanVAT = r.tppanHT * t.vatRate ∧ r.tppanTTC = r.tppanHT + r.tppanVAT) := by
  refine ⟨fun r hr => calculateTPPAN_vat c t r hr, ?_, ?_⟩
  · intro h
    refine ⟨_, calculateTPPAN_exempt c t h, rfl, rfl, ?_, ?_⟩ <;> simp
  · intro t0 t1 t2 rest ht
    obtain ⟨r, hr⟩ := calculateTPPAN_ok c t t0 t1 t2 rest ht
    exact ⟨r, hr, calculateTPPAN_vat c t r hr⟩

/-- Witness of `calculateTPPAN_vat_relations` at `c = 250` and the RADEEF table:
`tppanHT = 29.655`, `tppanVAT = 29.655 × 0.18`. -/
theorem calculateTPPAN_vat_relations_witness :
    ∃ r, calculateTPPAN 250 RADEEF_TARIFFS = Except.ok r ∧
      r.tppanVAT = r.tppanHT * RADEEF_TARIFFS.vatRate ∧
      r.tppanTTC = r.tppanHT + r.tppanVAT :=
  (calculateTPPAN_vat_relations 250 RADEEF_TARIFFS).2.2 _ _ _ _ rfl

/-- C13: at consumption 0 both bill functions return a bill whose consumption
charge and surtax are zero (excluding tax, tax and including tax), with
`tppanExempted = true` and empty `tierBreakdown` and `tppanBreakdown`; the fixed
fee is still charged, so `totalHT = 20.74`. -/
theorem bill_at_zero :
    (∃ b, calculateRADEEFBill 0 = Except.ok b ∧
      b.consumptionHT = 0 ∧ b.consumptionVAT = 0 ∧ b.consumptionTTC = 0 ∧
      b.tppanHT = 0 ∧ b.tppanVAT = 0 ∧ b.tppanTTC = 0 ∧
      b.tppanExempted = true ∧ b.tierBreakdown = [] ∧ b.tppanBreakdown = [] ∧
      b.totalHT = 20.74) ∧
    (∃ b, calculateONEEBill 0 = Except.ok b ∧
      b.consumptionHT = 0 ∧ b.consumptionVAT = 0 ∧ b.consumptionTTC = 0 ∧
      b.tppanHT = 0 ∧ b.tppanVAT = 0 ∧ b.tppanTTC = 0 ∧
      b.tppanExempted = true ∧ b.tierBreakdown = [] ∧ b.tppanBreakdown = [] ∧
      b.totalHT = 20.74) := by
  have hR : consumptionCharge 0 RADEEF_TARIFFS = (0, []) := by
    simp [consumptionCharge, progressiveLoop, RADEEF_TARIFFS]
  have hO : consumptionCharge 0 ONEE_TARIFFS = (0, []) := by
    simp [consumptionCharge, progressiveLoop, ONEE_TARIFFS]
  have tR := calculateTPPAN_exempt 0 RADEEF_TARIFFS (by norm_num [RADEEF_TARIFFS])
  have tO := calculateTPPAN_exempt 0 ONEE_TARIFFS (by norm_num [ONEE_TARIFFS])
  refine ⟨⟨_, calculateBillWith_eq _ _ _ _ tR, ?_⟩, ⟨_, calculateBillWith_eq _ _ _ _ tO, ?_⟩⟩
  · simp [hR]; norm_num [RADEEF_TARIFFS]
  · simp [hO]; norm_num [ONEE_TARIFFS]

/-- The consumption charge depends on the two tier lists of the table only. -/
theorem consumptionCharge_congr (c : ℚ) (t u : Tariffs) (hp : t.progressive = u.progressive)
    (hs : t.selective = u.selective) : consumptionCharge c t = consumptionCharge c u := by
  simp only [consumptionCharge, getTariffForConsumption, hp, hs]

/-- The surtax excluding tax, its breakdown and the exemption flag depend on the
`tppan` object of the table only. -/
theorem calculateTPPAN_congr (c : ℚ) (t u : Tariffs) (r s : TppanResult)
    (htp : t.tppan = u.tppan) (hr : calculateTPPAN c t = Except.ok r)
    (hs : calculateTPPAN c u = Except.ok s) :
    r.tppanHT = s.tppanHT ∧ r.breakdown = s.breakdown ∧ r.isExempted = s.isExempted := by
  by_cases h : c ≤ t.tppan.exemptionThreshold
  · rw [calculateTPPAN_exempt c t h] at hr
    rw [calculateTPPAN_exempt c u (by rw [← htp]; exact h)] at hs
    cases hr
    cases hs
    exact ⟨rfl, rfl, rfl⟩
  · have h' : ¬ c ≤ u.tppan.exemptionThreshold := by rw [← htp]; exact h
    simp only [calculateTPPAN, h, h', if_false, ← htp] at hr hs
    cases h0 : index t.tppan.tiers 0 with
    | error e => simp [h0, Except.bind] at hr
    | ok t0 =>
      cases h1 : index t.tppan.tiers 1 with
      | error e => simp [h0, h1, Except.bind] at hr
      | ok t1 =>
        by_cases h200 : c > 200
        · cases h2 : index t.tppan.tiers 2 with
          | error e => simp [h0, h1, h2, h200, Except.bind] at hr
          | ok t2 =>
            simp [h0, h1, h2, h200, Except.bind] at hr hs
            rw [← hr, ← hs]
            exact ⟨rfl, rfl, rfl⟩
        · simp [h0, h1, h200, Except.bind] at hr hs
          rw [← hr, ← hs]
          exact ⟨rfl, rfl, rfl⟩

/-- C14: the table `ONEE_TARIFFS` is `RADEEF_TARIFFS` with the VAT rate 0.20 in
place of 0.18, and for every consumption `c` the two bills have equal
`consumptionHT`, `fixedFeeHT`, `tppanHT`, `totalHT`, `tppanExempted`,
`tierBreakdown` and `tppanBreakdown`; the VAT fields are the same amounts
excluding tax times 0.18 for RADEEF and times 0.20 for ONEE, and the provider
labels are `RADEEF` and `ONEE`. -/
theorem providers_differ_in_vat_only (c : ℚ) :
    ONEE_TARIFFS = { RADEEF_TARIFFS with vatRate := 0.20 } ∧
    RADEEF_TARIFFS.vatRate = 0.18 ∧
    ∃ r o, calculateRADEEFBill c = Except.ok r ∧ calculateONEEBill c = Except.ok o ∧
      o.consumption = r.consumption ∧
      o.consumptionHT = r.consumptionHT ∧ o.fixedFeeHT = r.fixedFeeHT ∧
      o.tppanHT = r.tppanHT ∧ o.totalHT = r.totalHT ∧
      o.tppanExempted = r.tppanExempted ∧ o.tierBreakdown = r.tierBreakdown ∧
      o.tppanBreakdown = r.tppanBreakdown ∧
      r.consumptionVAT = r.consumptionHT * 0.18 ∧ o.consumptionVAT = r.consumptionHT * 0.20 ∧
      r.fixedFeeVAT = r.fixedFeeHT * 0.18 ∧ o.fixedFeeVAT = r.fixedFeeHT * 0.20 ∧
      r.tppanVAT = r.tppanHT * 0.18 ∧ o.tppanVAT = r.tppanHT * 0.20 ∧
      r.totalVAT = r.totalHT * 0.18 ∧ o.totalVAT = r.totalHT * 0.20 ∧
      r.provider = "RADEEF" ∧ o.provider = "ONEE" := by
  obtain ⟨r, hr⟩ := calculateTPPAN_RADEEF_ok c
  obtain ⟨o, ho⟩ := calculateTPPAN_ONEE_ok c
  obtain ⟨hr1, _⟩ := calculateTPPAN_vat c _ r hr
  obtain ⟨ho1, _⟩ := calculateTPPAN_vat c _ o ho
  obtain ⟨e1, e2, e3⟩ := calculateTPPAN_congr c ONEE_TARIFFS RADEEF_TARIFFS o r rfl ho hr
  have ec : consumptionCharge c ONEE_TARIFFS = consumptionCharge c RADEEF_TARIFFS :=
    consumptionCharge_congr c _ _ rfl rfl
  have vR : RADEEF_TARIFFS.vatRate = 0.18 := rfl
  have vO : ONEE_TARIFFS.vatRate = 0.20 := rfl
  have fO : ONEE_TARIFFS.fixedFeeHT = RADEEF_TARIFFS.fixedFeeHT := rfl
  refine ⟨rfl, rfl, _, _, calculateBillWith_eq _ _ _ r hr, calculateBillWith_eq _ _ _ o ho,
    rfl, ?_, fO, e1, ?_, e3, ?_, e2, ?_, ?_, ?_, ?_, ?_, ?_, ?_, ?_, rfl, rfl⟩
  · simp only [ec]
  · simp only [ec, e1, fO]
  · simp only [ec]
  · simp only [vR]
  · simp only [ec, vO]
  · simp only [vR]
  · simp only [vO, fO]
  · simp only [hr1, vR]
  · simp only [ho1, vO, e1]
  · simp only [hr1, vR]; ring
  · simp only [ho1, vO, e1, ec, fO]; ring

/-- The test of `getTariffForConsumption` is `min ≤ c ≤ max`, both ends included. -/
theorem Tier.contains_iff (x : Tier) (c : ℚ) :
    x.contains c = true ↔ (x.min ≤ c ∧ x.max.ge c = true) := by
  simp [Tier.contains]

/-- The search of a tier list returns its first tier that contains `c`. -/
theorem find_contains_eq_some (l : List Tier) (c : ℚ) (tier : Tier) :
    l.find? (fun x => x.contains c) = some tier ↔
      (tier.min ≤ c ∧ tier.max.ge c = true) ∧
      ∃ before after, l = before ++ tier :: after ∧
        ∀ x ∈ before, ¬ (x.min ≤ c ∧ x.max.ge c = true) := by
  rw [List.find?_eq_some, Tier.contains_iff]
  constructor
  · rintro ⟨h1, as, bs, hl, hb⟩
    refine ⟨h1, as, bs, hl, fun x hx hcon => ?_⟩
    have := hb x hx
    simp [(Tier.contains_iff x c).mpr hcon] at this
  · rintro ⟨h1, as, bs, hl, hb⟩
    refine ⟨h1, as, bs, hl, fun x hx => ?_⟩
    have := hb x hx
    rw [← Tier.contains_iff] at this
    simpa using this

/-- The search of a tier list returns `null` exactly when no tier contains `c`. -/
theorem find_contains_eq_none (l : List Tier) (c : ℚ) :
    l.find? (fun x => x.contains c) = none ↔
      ∀ x ∈ l, ¬ (x.min ≤ c ∧ x.max.ge c = true) := by
  rw [List.find?_eq_none]
  constructor
  · intro h x hx hcon
    exact h x hx ((Tier.contains_iff x c).mpr hcon)
  · intro h x hx hcon
    exact h x hx ((Tier.contains_iff x c).mp hcon)

/-- C15: for every table and consumption `c`, `getTariffForConsumption` searches
`progressive` when `c ≤ 150` and `selective` otherwise; it returns a tier exactly
when that tier is the first of the searched list with `min ≤ c ≤ max` (both ends
included), and `null` exactly when no tier of the searched list contains `c`. With
the built-in tables 210 yields the tier 151–210 and 211 the tier 211–310. -/
theorem getTariffForConsumption_first_match (c : ℚ) (t : Tariffs) :
    (∀ tier, getTariffForConsumption c t = some tier ↔
      (tier.min ≤ c ∧ tier.max.ge c = true) ∧
      ∃ before after, (if c ≤ 150 then t.progressive else t.selective)
          = before ++ tier :: after ∧
        ∀ x ∈ before, ¬ (x.min ≤ c ∧ x.max.ge c = true)) ∧
    (getTariffForConsumption c t = none ↔
      ∀ x ∈ (if c ≤ 150 then t.progressive else t.selective),
        ¬ (x.min ≤ c ∧ x.max.ge c = true)) ∧
    getTariffForConsumption 210 RADEEF_TARIFFS = some
      { min := 151, max := Limit.fin 210, priceHT := 0.9095, system := "انتقائي" } ∧
    getTariffForConsumption 211 RADEEF_TARIFFS = some
      { min := 211, max := Limit.fin 310, priceHT := 0.9895, system := "انتقائي" } ∧
    getTariffForConsumption 210 ONEE_TARIFFS = some
      { min := 151, max := Limit.fin 210, priceHT := 0.9095, system := "انتقائي" } ∧
    getTariffForConsumption 211 ONEE_TARIFFS = some
      { min := 211, max := Limit.fin 310, priceHT := 0.9895, system := "انتقائي" } := by
  refine ⟨?_, ?_, ?_, ?_, ?_, ?_⟩
  · intro tier
    unfold getTariffForConsumption
    by_cases h150 : c ≤ 150
    · simp only [h150, if_true]
      exact find_contains_eq_some _ c tier
    · simp only [h150, if_false]
      exact find_contains_eq_some _ c tier
  · unfold getTariffForConsumption
    by_cases h150 : c ≤ 150
    · simp only [h150, if_true]
      exact find_contains_eq_none _ c
    · simp only [h150, if_false]
      exact find_contains_eq_none _ c
  · simp [getTariffForConsumption, RADEEF_TARIFFS, Tier.contains, Limit.ge, List.find?]
    norm_num
  · simp [getTariffForConsumption, RADEEF_TARIFFS, Tier.contains, Limit.ge, List.find?]
    norm_num
  · simp [getTariffForConsumption, ONEE_TARIFFS, Tier.contains, Limit.ge, List.find?]
    norm_num
  · simp [getTariffForConsumption, ONEE_TARIFFS, Tier.contains, Limit.ge, List.find?]
    norm_num

/-- With the built-in tiers the consumption charge of a positive consumption and
every cost of its breakdown are non-negative. -/
theorem consumptionCharge_nonneg (t : Tariffs) (c : ℚ)
    (hp : t.progressive = RADEEF_TARIFFS.progressive)
    (hs : t.selective = RADEEF_TARIFFS.selective) (h0 : 0 < c) :
    0 ≤ (consumptionCharge c t).1 ∧ ∀ e ∈ (consumptionCharge c t).2, 0 ≤ e.cost := by
  by_cases h150 : c ≤ 150
  · by_cases h101 : c ≤ 101
    · rw [consumptionCharge_progressive_low t c hp h0 h101]
      have : 0 ≤ c * 0.7636 := mul_nonneg h0.le (by norm_num)
      simpa using this
    · have h101' : 101 < c := not_le.mp h101
      rw [consumptionCharge_progressive_high t c hp h101' h150]
      have h2 : 0 ≤ (c - 101) * 0.9095 := mul_nonneg (by linarith) (by norm_num)
      have h1 : (0 : ℚ) ≤ 101 * 0.7636 := by norm_num
      refine ⟨add_nonneg h1 h2, ?_⟩
      intro e he
      simp only [List.mem_cons, List.mem_singleton, List.not_mem_nil, or_false] at he
      rcases he with rfl | rfl
      · exact h1
      · exact h2
  · have h150' : 150 < c := not_le.mp h150
    cases hg : getTariffForConsumption c t with
    | none =>
      rw [consumptionCharge_gap c t h150' hg]
      simp
    | some tier =>
      rw [consumptionCharge_selective c t tier h150' hg]
      obtain ⟨_, hmem⟩ := getTariffForConsumption_some c t tier hg
      have hmem2 : tier ∈ RADEEF_TARIFFS.selective := by
        rcases hmem with ⟨h, _⟩ | ⟨_, h⟩
        · exact absurd h h150
        · rw [← hs]; exact h
      have hprice : 0 ≤ tier.priceHT := by
        simp only [RADEEF_TARIFFS, List.mem_cons, List.mem_singleton, List.not_mem_nil,
          or_false] at hmem2
        rcases hmem2 with rfl | rfl | rfl | rfl <;> norm_num
      have : 0 ≤ c * tier.priceHT := mul_nonneg h0.le hprice
      simpa using this

/-- With the built-in surtax configuration `calculateTPPAN` returns a result whose
`tppanHT` and breakdown costs are non-negative. -/
theorem calculateTPPAN_nonneg (t : Tariffs) (c : ℚ) (htp : t.tppan = RADEEF_TARIFFS.tppan) :
    ∃ r, calculateTPPAN c t = Except.ok r ∧
      r.tppanVAT = r.tppanHT * t.vatRate ∧ r.tppanTTC = r.tppanHT + r.tppanVAT ∧
      0 ≤ r.tppanHT ∧ ∀ e ∈ r.breakdown, 0 ≤ e.cost := by
  have hthr : t.tppan.exemptionThreshold = 200 := by rw [htp]; rfl
  by_cases h : c ≤ 200
  · refine ⟨_, calculateTPPAN_exempt c t (by rw [hthr]; exact h), ?_, ?_, ?_, ?_⟩ <;> simp
  · have h' : 200 < c := not_le.mp h
    have h3 : 0 ≤ (c - 200) * 0.1695 := mul_nonneg (by linarith) (by norm_num)
    refine ⟨_, calculateTPPAN_three c t _ _ _ _ (by rw [htp]; rfl) (by rw [hthr]; exact h) h',
      rfl, rfl, ?_, ?_⟩
    · simp only
      linarith
    · intro e he
      simp only [List.mem_cons, List.mem_singleton, List.not_mem_nil, or_false] at he
      rcases he with rfl | rfl | rfl
      · norm_num
      · norm_num
      · exact h3

/-- With the built-in tiers and surtax, a non-negative VAT rate and a non-negative
fixed fee, every monetary field of the bill of a positive consumption is
non-negative. -/
theorem calculateBillWith_nonneg (t : Tariffs) (p : String)
    (hp : t.progressive = RADEEF_TARIFFS.progressive)
    (hs : t.selective = RADEEF_TARIFFS.selective)
    (htp : t.tppan = RADEEF_TARIFFS.tppan) (hv : 0 ≤ t.vatRate) (hf : 0 ≤ t.fixedFeeHT)
    (c : ℚ) (h0 : 0 < c) :
    ∃ b, calculateBillWith t p c = Except.ok b ∧
      0 ≤ b.consumptionHT ∧ 0 ≤ b.consumptionVAT ∧ 0 ≤ b.consumptionTTC ∧
      0 ≤ b.fixedFeeHT ∧ 0 ≤ b.fixedFeeVAT ∧ 0 ≤ b.fixedFeeTTC ∧
      0 ≤ b.tppanHT ∧ 0 ≤ b.tppanVAT ∧ 0 ≤ b.tppanTTC ∧
      0 ≤ b.totalHT ∧ 0 ≤ b.totalVAT ∧ 0 ≤ b.totalTTC ∧
      (∀ e ∈ b.tierBreakdown, 0 ≤ e.cost) ∧ (∀ e ∈ b.tppanBreakdown, 0 ≤ e.cost) := by
  obtain ⟨r, hr, hva, hta, hT, hTb⟩ := calculateTPPAN_nonneg t c htp
  obtain ⟨hC, hCb⟩ := consumptionCharge_nonneg t c hp hs h0
  have hCv : 0 ≤ (consumptionCharge c t).1 * t.vatRate := mul_nonneg hC hv
  have hfv : 0 ≤ t.fixedFeeHT * t.vatRate := mul_nonneg hf hv
  have hTv : 0 ≤ r.tppanVAT := by rw [hva]; exact mul_nonneg hT hv
  have hTt : 0 ≤ r.tppanTTC := by rw [hta]; exact add_nonneg hT hTv
  refine ⟨_, calculateBillWith_eq t p c r hr, hC, hCv, add_nonneg hC hCv, hf, hfv,
    add_nonneg hf hfv, hT, hTv, hTt, ?_, ?_, ?_, hCb, hTb⟩
  · exact add_nonneg (add_nonneg hC hf) hT
  · exact add_nonneg (add_nonneg hCv hfv) hTv
  · exact add_nonneg (add_nonneg (add_nonneg hC hCv) (add_nonneg hf hfv)) hTt

/-- C16: for every positive consumption `c`, both bill functions return a bill in
which the twelve amounts (consumption, fixed fee, surtax and totals, each
excluding tax, tax and including tax) and every `cost` of `tierBreakdown` and of
`tppanBreakdown` are non-negative. -/
theorem bill_fields_nonneg (c : ℚ) (h0 : 0 < c) :
    (∃ b, calculateRADEEFBill c = Except.ok b ∧
      0 ≤ b.consumptionHT ∧ 0 ≤ b.consumptionVAT ∧ 0 ≤ b.consumptionTTC ∧
      0 ≤ b.fixedFeeHT ∧ 0 ≤ b.fixedFeeVAT ∧ 0 ≤ b.fixedFeeTTC ∧
      0 ≤ b.tppanHT ∧ 0 ≤ b.tppanVAT ∧ 0 ≤ b.tppanTTC ∧
      0 ≤ b.totalHT ∧ 0 ≤ b.totalVAT ∧ 0 ≤ b.totalTTC ∧
      (∀ e ∈ b.tierBreakdown, 0 ≤ e.cost) ∧ (∀ e ∈ b.tppanBreakdown, 0 ≤ e.cost)) ∧
    (∃ b, calculateONEEBill c = Except.ok b ∧
      0 ≤ b.consumptionHT ∧ 0 ≤ b.consumptionVAT ∧ 0 ≤ b.consumptionTTC ∧
      0 ≤ b.fixedFeeHT ∧ 0 ≤ b.fixedFeeVAT ∧ 0 ≤ b.fixedFeeTTC ∧
      0 ≤ b.tppanHT ∧ 0 ≤ b.tppanVAT ∧ 0 ≤ b.tppanTTC ∧
      0 ≤ b.totalHT ∧ 0 ≤ b.totalVAT ∧ 0 ≤ b.totalTTC ∧
      (∀ e ∈ b.tierBreakdown, 0 ≤ e.cost) ∧ (∀ e ∈ b.tppanBreakdown, 0 ≤ e.cost)) :=
  ⟨calculateBillWith_nonneg RADEEF_TARIFFS "RADEEF" rfl rfl rfl
      (by norm_num [RADEEF_TARIFFS]) (by norm_num [RADEEF_TARIFFS]) c h0,
    calculateBillWith_nonneg ONEE_TARIFFS "ONEE" rfl rfl rfl
      (by norm_num [ONEE_TARIFFS]) (by norm_num [ONEE_TARIFFS]) c h0⟩

/-- Witness of `bill_fields_nonneg` at `c = 250`. -/
theorem bill_fields_nonneg_witness :
    (0 : ℚ) < 250 ∧
    ((∃ b, calculateRADEEFBill 250 = Except.ok b ∧
      0 ≤ b.consumptionHT ∧ 0 ≤ b.consumptionVAT ∧ 0 ≤ b.consumptionTTC ∧
      0 ≤ b.fixedFeeHT ∧ 0 ≤ b.fixedFeeVAT ∧ 0 ≤ b.fixedFeeTTC ∧
      0 ≤ b.tppanHT ∧ 0 ≤ b.tppanVAT ∧ 0 ≤ b.tppanTTC ∧
      0 ≤ b.totalHT ∧ 0 ≤ b.totalVAT ∧ 0 ≤ b.totalTTC ∧
      (∀ e ∈ b.tierBreakdown, 0 ≤ e.cost) ∧ (∀ e ∈ b.tppanBreakdown, 0 ≤ e.cost)) ∧
    (∃ b, calculateONEEBill 250 = Except.ok b ∧
      0 ≤ b.consumptionHT ∧ 0 ≤ b.consumptionVAT ∧ 0 ≤ b.consumptionTTC ∧
      0 ≤ b.fixedFeeHT ∧ 0 ≤ b.fixedFeeVAT ∧ 0 ≤ b.fixedFeeTTC ∧
      0 ≤ b.tppanHT ∧ 0 ≤ b.tppanVAT ∧ 0 ≤ b.tppanTTC ∧
      0 ≤ b.totalHT ∧ 0 ≤ b.totalVAT ∧ 0 ≤ b.totalTTC ∧
      (∀ e ∈ b.tierBreakdown, 0 ≤ e.cost) ∧ (∀ e ∈ b.tppanBreakdown, 0 ≤ e.cost))) :=
  ⟨by norm_num, bill_fields_nonneg 250 (by norm_num)⟩

/-- C17: the fixed fee does not depend on the consumption: for every `c`, the
RADEEF bill has `fixedFeeHT = 20.74`, `fixedFeeVAT = 20.74 × 0.18` and
`fixedFeeTTC = fixedFeeHT + fixedFeeVAT`, and the ONEE bill has
`fixedFeeHT = 20.74`, `fixedFeeVAT = 20.74 × 0.20` and
`fixedFeeTTC = fixedFeeHT + fixedFeeVAT`. -/
theorem fixed_fee_constant (c : ℚ) :
    (∃ b, calculateRADEEFBill c = Except.ok b ∧ b.fixedFeeHT = 20.74 ∧
      b.fixedFeeVAT = 20.74 * 0.18 ∧ b.fixedFeeTTC = b.fixedFeeHT + b.fixedFeeVAT) ∧
    (∃ b, calculateONEEBill c = Except.ok b ∧ b.fixedFeeHT = 20.74 ∧
      b.fixedFeeVAT = 20.74 * 0.20 ∧ b.fixedFeeTTC = b.fixedFeeHT + b.fixedFeeVAT) := by
  obtain ⟨r, hr⟩ := calculateTPPAN_RADEEF_ok c
  obtain ⟨o, ho⟩ := calculateTPPAN_ONEE_ok c
  exact ⟨⟨_, calculateBillWith_eq _ _ _ r hr, rfl, rfl, rfl⟩,
    ⟨_, calculateBillWith_eq _ _ _ o ho, rfl, rfl, rfl⟩⟩

/-- C19: for every consumption `c` with `0 < c ≤ 150`, `calculateRADEEFBill(c)`
returns a bill whose first entry charges `min(c, 101)` kWh at 0.7636 under the
label of the tier 0–100 and which has a second entry, of `c − 101` kWh at 0.9095
under the label of the tier 101–150, exactly when `c > 101`; `consumptionHT` is
the sum of these costs. -/
theorem progressive_allocation (c : ℚ) (h0 : 0 < c) (h150 : c ≤ 150) :
    ∃ b, calculateRADEEFBill c = Except.ok b ∧
      b.tierBreakdown =
        { tier := { min := 0, max := Limit.fin 100, system := "تدريجي" },
          consumption := min c 101, priceHT := 0.7636, cost := min c 101 * 0.7636 } ::
        (if 101 < c then
          [{ tier := { min := 101, max := Limit.fin 150, system := "تدريجي" },
             consumption := c - 101, priceHT := 0.9095, cost := (c - 101) * 0.9095 }]
         else []) ∧
      b.consumptionHT = min c 101 * 0.7636 + (if 101 < c then (c - 101) * 0.9095 else 0) := by
  obtain ⟨r, hr⟩ := calculateTPPAN_RADEEF_ok c
  refine ⟨_, calculateBillWith_eq _ _ _ r hr, ?_, ?_⟩
  · by_cases h101 : c ≤ 101
    · simp only [consumptionCharge_progressive_low RADEEF_TARIFFS c rfl h0 h101,
        min_eq_left h101, not_lt.mpr h101, if_false]
    · have h101' : 101 < c := not_le.mp h101
      simp only [consumptionCharge_progressive_high RADEEF_TARIFFS c rfl h101' h150,
        min_eq_right h101'.le, h101', if_true]
  · by_cases h101 : c ≤ 101
    · simp only [consumptionCharge_progressive_low RADEEF_TARIFFS c rfl h0 h101,
        min_eq_left h101, not_lt.mpr h101, if_false, add_zero]
    · have h101' : 101 < c := not_le.mp h101
      simp only [consumptionCharge_progressive_high RADEEF_TARIFFS c rfl h101' h150,
        min_eq_right h101'.le, h101', if_true]

/-- Witness of `progressive_allocation` at `c = 100`: a single entry, of 100 kWh
at 0.7636, of cost 76.36. -/
theorem progressive_allocation_witness :
    (0 : ℚ) < 100 ∧ (100 : ℚ) ≤ 150 ∧
    ∃ b, calculateRADEEFBill 100 = Except.ok b ∧
      b.tierBreakdown =
        [{ tier := { min := 0, max := Limit.fin 100, system := "تدريجي" },
           consumption := 100, priceHT := 0.7636, cost := 76.36 }] ∧
      b.consumptionHT = 76.36 := by
  obtain ⟨b, hb, hbd, hht⟩ := progressive_allocation 100 (by norm_num) (by norm_num)
  refine ⟨by norm_num, by norm_num, b, hb, ?_, ?_⟩
  · rw [hbd]
    norm_num
  · rw [hht]
    norm_num

/-- C20, at the failing input: for 120 kWh (between 100 and 150)
`calculateRADEEFBill` charges 101 kWh, not 100, at the price 0.7636 of the tier
0–100 and 19 kWh, not 20, at the price 0.9095 of the tier 101–150, so that
`consumptionHT = 94.4041` and not `100 × 0.7636 + 20 × 0.9095 = 94.55`. -/
theorem progressive_first_tier_takes_101_at_120 :
    (100 : ℚ) < 120 ∧ (120 : ℚ) ≤ 150 ∧
    ∃ b, calculateRADEEFBill 120 = Except.ok b ∧
      b.tierBreakdown =
        [{ tier := { min := 0, max := Limit.fin 100, system := "تدريجي" },
           consumption := 101, priceHT := 0.7636, cost := 77.1236 },
         { tier := { min := 101, max := Limit.fin 150, system := "تدريجي" },
           consumption := 19, priceHT := 0.9095, cost := 17.2805 }] ∧
      b.consumptionHT = 94.4041 ∧
      b.consumptionHT ≠ 100 * 0.7636 + (120 - 100) * 0.9095 := by
  obtain ⟨r, hr⟩ := calculateTPPAN_RADEEF_ok 120
  have hc := consumptionCharge_progressive_high RADEEF_TARIFFS 120 rfl (by norm_num)
    (by norm_num)
  refine ⟨by norm_num, by norm_num, _, calculateBillWith_eq _ _ _ r hr, ?_, ?_, ?_⟩
  · simp only [hc]
    norm_num
  · simp only [hc]
    norm_num
  · simp only [hc]
    norm_num

/-- The tier that `getTariffForConsumption` returns on each band of the built-in
tier lists. -/
theorem getTariffForConsumption_bands (t : Tariffs) (c : ℚ)
    (hp : t.progressive = RADEEF_TARIFFS.progressive)
    (hs : t.selective = RADEEF_TARIFFS.selective) :
    (0 ≤ c → c ≤ 100 → getTariffForConsumption c t = some
      { min := 0, max := Limit.fin 100, priceHT := 0.7636, system := "تدريجي" }) ∧
    (101 ≤ c → c ≤ 150 → getTariffForConsumption c t = some
      { min := 101, max := Limit.fin 150, priceHT := 0.9095, system := "تدريجي" }) ∧
    (151 ≤ c → c ≤ 210 → getTariffForConsumption c t = some
      { min := 151, max := Limit.fin 210, priceHT := 0.9095, system := "انتقائي" }) ∧
    (211 ≤ c → c ≤ 310 → getTariffForConsumption c t = some
      { min := 211, max := Limit.fin 310, priceHT := 0.9895, system := "انتقائي" }) ∧
    (311 ≤ c → c ≤ 510 → getTariffForConsumption c t = some
      { min := 311, max := Limit.fin 510, priceHT := 1.1709, system := "انتقائي" }) ∧
    (511 ≤ c → getTariffForConsumption c t = some
      { min := 511, max := Limit.infinity, priceHT := 1.3524, system := "انتقائي" }) := by
  refine ⟨?_, ?_, ?_, ?_, ?_, ?_⟩
  · intro h1 h2
    have h150 : c ≤ 150 := by linarith
    simp [getTariffForConsumption, hp, RADEEF_TARIFFS, Tier.contains, Limit.ge, h150, h1, h2]
  · intro h1 h2
    have n1 : ¬ c ≤ 100 := by linarith
    simp [getTariffForConsumption, hp, RADEEF_TARIFFS, Tier.contains, Limit.ge, h1, h2, n1]
  · intro h1 h2
    have n150 : ¬ c ≤ 150 := by linarith
    simp [getTariffForConsumption, hs, RADEEF_TARIFFS, Tier.contains, Limit.ge, h1, h2, n150]
  · intro h1 h2
    have n150 : ¬ c ≤ 150 := by linarith
    have n1 : ¬ c ≤ 210 := by linarith
    simp [getTariffForConsumption, hs, RADEEF_TARIFFS, Tier.contains, Limit.ge, h1, h2, n150,
      n1]
  · intro h1 h2
    have n150 : ¬ c ≤ 150 := by linarith
    have n1 : ¬ c ≤ 210 := by linarith
    have n2 : ¬ c ≤ 310 := by linarith
    simp [getTariffForConsumption, hs, RADEEF_TARIFFS, Tier.contains, Limit.ge, h1, h2, n150,
      n1, n2]
  · intro h1
    have n150 : ¬ c ≤ 150 := by linarith
    have n1 : ¬ c ≤ 210 := by linarith
    have n2 : ¬ c ≤ 310 := by linarith
    have n3 : ¬ c ≤ 510 := by linarith
    simp [getTariffForConsumption, hs, RADEEF_TARIFFS, Tier.contains, Limit.ge, h1, n150,
      n1, n2, n3]

/-- C21, at the failing input: 100.5 kWh lies in `[0, 150]` but between the
progressive tiers 0–100 and 101–150, and `getTariffForConsumption` returns `null`
for both built-in tables. -/
theorem progressive_gap_at_100_5 :
    (0 : ℚ) ≤ 100.5 ∧ (100.5 : ℚ) ≤ 150 ∧
    getTariffForConsumption 100.5 RADEEF_TARIFFS = none ∧
    getTariffForConsumption 100.5 ONEE_TARIFFS = none := by
  refine ⟨by norm_num, by norm_num, ?_, ?_⟩
  · simp [getTariffForConsumption, RADEEF_TARIFFS, Tier.contains, Limit.ge, List.find?]
    norm_num
  · simp [getTariffForConsumption, ONEE_TARIFFS, Tier.contains, Limit.ge, List.find?]
    norm_num

/-- C22: for every previous history, after `saveToHistory(result)` the first
element of `calculationHistory` is the new item (the result with the date and the
id), the elements that follow are the first eleven of the previous history, in
their previous order (the whole previous history when it had at most eleven
elements), the length is `min(previous length + 1, 12)`, and the same list is
stored. -/
theorem saveToHistory_keeps_twelve (result : Bill) (isoDate : String) (now : ℕ)
    (s : HistoryState) :
    (saveToHistory result isoDate now s).calculationHistory
      = { result := result, date := isoDate, id := now } :: s.calculationHistory.take 11 ∧
    (∃ dropped,
      (saveToHistory result isoDate now s).calculationHistory.tail ++ dropped
        = s.calculationHistory) ∧
    (saveToHistory result isoDate now s).calculationHistory.length
      = min (s.calculationHistory.length + 1) 12 ∧
    (saveToHistory result isoDate now s).electricityHistory
      = (saveToHistory result isoDate now s).calculationHistory := by
  have key : (saveToHistory result isoDate now s).calculationHistory
      = { result := result, date := isoDate, id := now } :: s.calculationHistory.take 11 := by
    simp only [saveToHistory]
    by_cases h : (({ result := result, date := isoDate, id := now } : HistoryItem)
        :: s.calculationHistory).length > 12
    · rw [if_pos h]
      rfl
    · rw [if_neg h]
      have h' : s.calculationHistory.length ≤ 11 := by
        simp only [List.length_cons] at h
        omega
      rw [List.take_of_length_le h']
  refine ⟨key, ⟨s.calculationHistory.drop 11, ?_⟩, ?_, rfl⟩
  · rw [key]
    exact List.take_append_drop 11 _
  · rw [key]
    simp only [List.length_cons, List.length_take]
    omega

/-- With the built-in tier lists every whole non-negative consumption lies in a
tier. -/
theorem getTariffForConsumption_int (t : Tariffs) (n : ℤ)
    (hp : t.progressive = RADEEF_TARIFFS.progressive)
    (hs : t.selective = RADEEF_TARIFFS.selective) (h0 : 0 ≤ n) :
    ∃ tier, getTariffForConsumption (n : ℚ) t = some tier := by
  obtain ⟨b1, b2, b3, b4, b5, b6⟩ := getTariffForConsumption_bands t (n : ℚ) hp hs
  have c0 : (0 : ℚ) ≤ (n : ℚ) := by exact_mod_cast h0
  by_cases h100 : n ≤ 100
  · exact ⟨_, b1 c0 (by exact_mod_cast h100)⟩
  · by_cases h150 : n ≤ 150
    · have : (101 : ℤ) ≤ n := by omega
      exact ⟨_, b2 (by exact_mod_cast this) (by exact_mod_cast h150)⟩
    · by_cases h210 : n ≤ 210
      · have : (151 : ℤ) ≤ n := by omega
        exact ⟨_, b3 (by exact_mod_cast this) (by exact_mod_cast h210)⟩
      · by_cases h310 : n ≤ 310
        · have : (211 : ℤ) ≤ n := by omega
          exact ⟨_, b4 (by exact_mod_cast this) (by exact_mod_cast h310)⟩
        · by_cases h510 : n ≤ 510
          · have : (311 : ℤ) ≤ n := by omega
            exact ⟨_, b5 (by exact_mod_cast this) (by exact_mod_cast h510)⟩
          · have : (511 : ℤ) ≤ n := by omega
            exact ⟨_, b6 (by exact_mod_cast this)⟩

/-- C23: for all integers `a`, `b` with `0 ≤ a < b`, the RADEEF bill for `a` kWh
has a strictly smaller `totalTTC` than the RADEEF bill for `b` kWh, and likewise
for ONEE; this covers the switch at 150/151, the changes of selective bracket and
the surtax threshold at 200/201. -/
theorem totalTTC_strictly_increasing_on_integers (a b : ℤ) (h0 : 0 ≤ a) (hab : a < b) :
    (∃ x y, calculateRADEEFBill (a : ℚ) = Except.ok x ∧
      calculateRADEEFBill (b : ℚ) = Except.ok y ∧ x.totalTTC < y.totalTTC) ∧
    (∃ x y, calculateONEEBill (a : ℚ) = Except.ok x ∧
      calculateONEEBill (b : ℚ) = Except.ok y ∧ x.totalTTC < y.totalTTC) := by
  have hb0 : 0 ≤ b := le_trans h0 hab.le
  have ca : (0 : ℚ) ≤ (a : ℚ) := by exact_mod_cast h0
  have cab : (a : ℚ) < (b : ℚ) := by exact_mod_cast hab
  constructor
  · obtain ⟨ta, hta⟩ := getTariffForConsumption_int RADEEF_TARIFFS a rfl rfl h0
    obtain ⟨tb, htb⟩ := getTariffForConsumption_int RADEEF_TARIFFS b rfl rfl hb0
    exact totalTTC_lt_of_covered RADEEF_TARIFFS "RADEEF" rfl rfl rfl
      (by norm_num [RADEEF_TARIFFS]) (a : ℚ) (b : ℚ) ca cab
      (Or.inr (by rw [hta]; exact Option.some_ne_none _))
      (Or.inr (by rw [htb]; exact Option.some_ne_none _))
  · obtain ⟨ta, hta⟩ := getTariffForConsumption_int ONEE_TARIFFS a rfl rfl h0
    obtain ⟨tb, htb⟩ := getTariffForConsumption_int ONEE_TARIFFS b rfl rfl hb0
    exact totalTTC_lt_of_covered ONEE_TARIFFS "ONEE" rfl rfl rfl
      (by norm_num [ONEE_TARIFFS]) (a : ℚ) (b : ℚ) ca cab
      (Or.inr (by rw [hta]; exact Option.some_ne_none _))
      (Or.inr (by rw [htb]; exact Option.some_ne_none _))

/-- Witness of `totalTTC_strictly_increasing_on_integers` across the switch from
progressive to selective pricing, `a = 150` and `b = 151`. -/
theorem totalTTC_strictly_increasing_on_integers_witness :
    (0 : ℤ) ≤ 150 ∧ (150 : ℤ) < 151 ∧
    (∃ x y, calculateRADEEFBill ((150 : ℤ) : ℚ) = Except.ok x ∧
      calculateRADEEFBill ((151 : ℤ) : ℚ) = Except.ok y ∧ x.totalTTC < y.totalTTC) ∧
    (∃ x y, calculateONEEBill ((150 : ℤ) : ℚ) = Except.ok x ∧
      calculateONEEBill ((151 : ℤ) : ℚ) = Except.ok y ∧ x.totalTTC < y.totalTTC) :=
  ⟨by norm_num, by norm_num,
    totalTTC_strictly_increasing_on_integers 150 151 (by norm_num) (by norm_num)⟩

/-- With the built-in tier lists, the bill of a whole consumption of at least 151
kWh has one tier entry, charging the whole consumption at the price of the tier
that `getTariffForConsumption` returns. -/
theorem calculateBillWith_int_selective (t : Tariffs) (p : String) (n : ℤ)
    (hp : t.progressive = RADEEF_TARIFFS.progressive)
    (hs : t.selective = RADEEF_TARIFFS.selective)
    (htp : t.tppan = RADEEF_TARIFFS.tppan) (h151 : 151 ≤ n) :
    ∃ tier b, getTariffForConsumption (n : ℚ) t = some tier ∧
      calculateBillWith t p (n : ℚ) = Except.ok b ∧
      b.tierBreakdown =
        [{ tier := { min := tier.min, max := tier.max, system := tier.system },
           consumption := (n : ℚ), priceHT := tier.priceHT,
           cost := (n : ℚ) * tier.priceHT }] ∧
      b.tierBreakdown.length = 1 ∧
      b.consumptionHT = (n : ℚ) * tier.priceHT := by
  obtain ⟨tier, htier⟩ := getTariffForConsumption_int t n hp hs (by omega)
  obtain ⟨r, hr, _⟩ := calculateTPPAN_regions t (n : ℚ) htp
  have h150 : (150 : ℚ) < (n : ℚ) := by
    have : (150 : ℤ) < n := by omega
    exact_mod_cast this
  have hc := consumptionCharge_selective (n : ℚ) t tier h150 htier
  refine ⟨tier, _, htier, calculateBillWith_eq t p _ r hr, ?_, ?_, ?_⟩ <;> simp [hc]

/-- C24: for every integer `n ≥ 0`, `getTariffForConsumption` returns a tier for
both built-in tables; for every integer `n ≥ 151` the bill has exactly one tier
entry, of quantity `n` and cost `n ×` the price of that tier; hence a consumption
for which no tier is found is negative or not an integer. -/
theorem integer_consumption_has_tier :
    (∀ n : ℤ, 0 ≤ n →
      (∃ tier, getTariffForConsumption (n : ℚ) RADEEF_TARIFFS = some tier) ∧
      (∃ tier, getTariffForConsumption (n : ℚ) ONEE_TARIFFS = some tier)) ∧
    (∀ n : ℤ, 151 ≤ n →
      (∃ tier b, getTariffForConsumption (n : ℚ) RADEEF_TARIFFS = some tier ∧
        calculateRADEEFBill (n : ℚ) = Except.ok b ∧
        b.tierBreakdown =
          [{ tier := { min := tier.min, max := tier.max, system := tier.system },
             consumption := (n : ℚ), priceHT := tier.priceHT,
             cost := (n : ℚ) * tier.priceHT }] ∧
        b.tierBreakdown.length = 1 ∧
        b.consumptionHT = (n : ℚ) * tier.priceHT) ∧
      (∃ tier b, getTariffForConsumption (n : ℚ) ONEE_TARIFFS = some tier ∧
        calculateONEEBill (n : ℚ) = Except.ok b ∧
        b.tierBreakdown =
          [{ tier := { min := tier.min, max := tier.max, system := tier.system },
             consumption := (n : ℚ), priceHT := tier.priceHT,
             cost := (n : ℚ) * tier.priceHT }] ∧
        b.tierBreakdown.length = 1 ∧
        b.consumptionHT = (n : ℚ) * tier.priceHT)) ∧
    (∀ c : ℚ, (getTariffForConsumption c RADEEF_TARIFFS = none ∨
        getTariffForConsumption c ONEE_TARIFFS = none) →
      c < 0 ∨ ∀ n : ℤ, (n : ℚ) ≠ c) := by
  refine ⟨?_, ?_, ?_⟩
  · intro n h0
    exact ⟨getTariffForConsumption_int RADEEF_TARIFFS n rfl rfl h0,
      getTariffForConsumption_int ONEE_TARIFFS n rfl rfl h0⟩
  · intro n h151
    exact ⟨calculateBillWith_int_selective RADEEF_TARIFFS "RADEEF" n rfl rfl rfl h151,
      calculateBillWith_int_selective ONEE_TARIFFS "ONEE" n rfl rfl rfl h151⟩
  · intro c hnone
    by_cases hneg : c < 0
    · exact Or.inl hneg
    · right
      intro n hn
      have h0 : 0 ≤ n := by
        have : (0 : ℚ) ≤ (n : ℚ) := by rw [hn]; exact not_lt.mp hneg
        exact_mod_cast this
      obtain ⟨tr, htr⟩ := getTariffForConsumption_int RADEEF_TARIFFS n rfl rfl h0
      obtain ⟨tone, hto⟩ := getTariffForConsumption_int ONEE_TARIFFS n rfl rfl h0
      rw [hn] at htr hto
      rcases hnone with h | h
      · rw [h] at htr
        exact Option.noConfusion htr
      · rw [h] at hto
        exact Option.noConfusion hto

/-- Witness of `integer_consumption_has_tier` at 250 kWh, for the RADEEF table. -/
theorem integer_consumption_has_tier_witness :
    (151 : ℤ) ≤ 250 ∧
    ∃ tier b, getTariffForConsumption ((250 : ℤ) : ℚ) RADEEF_TARIFFS = some tier ∧
      calculateRADEEFBill ((250 : ℤ) : ℚ) = Except.ok b ∧
      b.tierBreakdown =
        [{ tier := { min := tier.min, max := tier.max, system := tier.system },
           consumption := ((250 : ℤ) : ℚ), priceHT := tier.priceHT,
           cost := ((250 : ℤ) : ℚ) * tier.priceHT }] ∧
      b.tierBreakdown.length = 1 ∧
      b.consumptionHT = ((250 : ℤ) : ℚ) * tier.priceHT :=
  ⟨by norm_num, (integer_consumption_has_tier.2.1 250 (by norm_num)).1⟩

/-- C25: for 101 kWh `getTariffForConsumption` returns the tier 101–150 at 0.9095,
whereas `calculateRADEEFBill(101)` bills all 101 kWh at 0.7636 in a single entry
labelled with the tier 0–100. -/
theorem tier_shown_differs_from_tier_billed_at_101 :
    getTariffForConsumption 101 RADEEF_TARIFFS = some
      { min := 101, max := Limit.fin 150, priceHT := 0.9095, system := "تدريجي" } ∧
    ∃ b, calculateRADEEFBill 101 = Except.ok b ∧
      b.tierBreakdown =
        [{ tier := { min := 0, max := Limit.fin 100, system := "تدريجي" },
           consumption := 101, priceHT := 0.7636, cost := 101 * 0.7636 }] ∧
      b.consumptionHT = 101 * 0.7636 := by
  obtain ⟨r, hr⟩ := calculateTPPAN_RADEEF_ok 101
  have hc := consumptionCharge_progressive_low RADEEF_TARIFFS 101 rfl (by norm_num)
    (le_refl _)
  refine ⟨(getTariffForConsumption_bands RADEEF_TARIFFS 101 rfl rfl).2.1 (le_refl _)
    (by norm_num), _, calculateBillWith_eq _ _ _ r hr, ?_, ?_⟩
  · simp only [hc]
  · simp only [hc]

/-- C26: for every consumption `c` with `0 < c ≤ 150`, the quantities of the
`tierBreakdown` entries of `calculateRADEEFBill(c)` add up to `c`. -/
theorem progressive_quantities_sum (c : ℚ) (h0 : 0 < c) (h150 : c ≤ 150) :
    ∃ b, calculateRADEEFBill c = Except.ok b ∧
      (b.tierBreakdown.map TierEntry.consumption).sum = c := by
  obtain ⟨r, hr⟩ := calculateTPPAN_RADEEF_ok c
  refine ⟨_, calculateBillWith_eq _ _ _ r hr, ?_⟩
  by_cases h101 : c ≤ 101
  · simp [consumptionCharge_progressive_low RADEEF_TARIFFS c rfl h0 h101]
  · have h101' : 101 < c := not_le.mp h101
    simp [consumptionCharge_progressive_high RADEEF_TARIFFS c rfl h101' h150]

/-- Witness of `progressive_quantities_sum` at `c = 120` (101 + 19 kWh). -/
theorem progressive_quantities_sum_witness :
    (0 : ℚ) < 120 ∧ (120 : ℚ) ≤ 150 ∧
    ∃ b, calculateRADEEFBill 120 = Except.ok b ∧
      (b.tierBreakdown.map TierEntry.consumption).sum = 120 :=
  ⟨by norm_num, by norm_num, progressive_quantities_sum 120 (by norm_num) (by norm_num)⟩

/-- C27: for every consumption `c ≤ 0`, `calculateRADEEFBill(c)` returns, without
error, a bill with `consumptionHT = 0`, an empty `tierBreakdown`,
`tppanExempted = true`, `totalHT = fixedFeeHT = 20.74` and
`totalTTC = fixedFeeTTC = 20.74 × 1.18`. -/
theorem nonpositive_consumption_fixed_fee_only (c : ℚ) (h : c ≤ 0) :
    ∃ b, calculateRADEEFBill c = Except.ok b ∧
      b.consumptionHT = 0 ∧ b.tierBreakdown = [] ∧ b.tppanExempted = true ∧
      b.totalHT = b.fixedFeeHT ∧ b.fixedFeeHT = 20.74 ∧
      b.totalTTC = b.fixedFeeTTC ∧ b.fixedFeeTTC = 20.74 * 1.18 := by
  have h150 : c ≤ 150 := le_trans h (by norm_num)
  have hR : consumptionCharge c RADEEF_TARIFFS = (0, []) := by
    simp [consumptionCharge, progressiveLoop, RADEEF_TARIFFS, h, h150]
  have tR := calculateTPPAN_exempt c RADEEF_TARIFFS
    (le_trans h (by norm_num [RADEEF_TARIFFS]))
  refine ⟨_, calculateBillWith_eq _ _ _ _ tR, ?_, ?_, rfl, ?_, rfl, ?_, ?_⟩
  · simp [hR]
  · simp [hR]
  · simp [hR]
  · simp [hR]
  · norm_num [RADEEF_TARIFFS]

/-- Witness of `nonpositive_consumption_fixed_fee_only` at `c = -3`. -/
theorem nonpositive_consumption_fixed_fee_only_witness :
    (-3 : ℚ) ≤ 0 ∧
    ∃ b, calculateRADEEFBill (-3) = Except.ok b ∧
      b.consumptionHT = 0 ∧ b.tierBreakdown = [] ∧ b.tppanExempted = true ∧
      b.totalHT = b.fixedFeeHT ∧ b.fixedFeeHT = 20.74 ∧
      b.totalTTC = b.fixedFeeTTC ∧ b.fixedFeeTTC = 20.74 * 1.18 :=
  ⟨by norm_num, nonpositive_consumption_fixed_fee_only (-3) (by norm_num)⟩

/-- On a number, `calculateTPPAN` with either built-in table returns an exempt
result with an empty breakdown, or a non-exempt result with exactly three
breakdown entries and `tppanHT > 21.18`. -/
theorem calculateTPPAN_number_zero_or_three (c : ℚ) :
    (∃ r, calculateTPPAN c RADEEF_TARIFFS = Except.ok r ∧
      ((r.isExempted = true ∧ r.breakdown = []) ∨
        (r.isExempted = false ∧ r.breakdown.length = 3 ∧ 21.18 < r.tppanHT)) ∧
      r.breakdown.length ≠ 1 ∧ r.breakdown.length ≠ 2) ∧
    (∃ r, calculateTPPAN c ONEE_TARIFFS = Except.ok r ∧
      ((r.isExempted = true ∧ r.breakdown = []) ∨
        (r.isExempted = false ∧ r.breakdown.length = 3 ∧ 21.18 < r.tppanHT)) ∧
      r.breakdown.length ≠ 1 ∧ r.breakdown.length ≠ 2) := by
  by_cases h : c ≤ 200
  · refine ⟨⟨_, calculateTPPAN_exempt c RADEEF_TARIFFS h, Or.inl ⟨rfl, rfl⟩, ?_, ?_⟩,
      ⟨_, calculateTPPAN_exempt c ONEE_TARIFFS h, Or.inl ⟨rfl, rfl⟩, ?_, ?_⟩⟩ <;> simp
  · have h' : 200 < c := not_le.mp h
    have hpos : (21.18 : ℚ) < 100 * 0.0847 + 100 * 0.1271 + (c - 200) * 0.1695 := by
      have : 0 < (c - 200) * 0.1695 := mul_pos (by linarith) (by norm_num)
      linarith
    refine ⟨⟨_, calculateTPPAN_three c RADEEF_TARIFFS _ _ _ _ rfl h h',
        Or.inr ⟨rfl, rfl, hpos⟩, ?_, ?_⟩,
      ⟨_, calculateTPPAN_three c ONEE_TARIFFS _ _ _ _ rfl h h',
        Or.inr ⟨rfl, rfl, hpos⟩, ?_, ?_⟩⟩ <;> simp

/-- C29: for every table with at least three surtax tiers `t0, t1, t2` and every
consumption `c` above the exemption threshold `T` and at most 200 (so that
`T < 200`), `calculateTPPAN` returns a non-exempt result with exactly two
breakdown entries, of 100 kWh each, and
`tppanHT = 100 × t0.priceHT + 100 × t1.priceHT`, whatever `c` and whatever the
`min` and `max` of the tiers. -/
theorem calculateTPPAN_two_fixed_quantities (c : ℚ) (t : Tariffs) (t0 t1 t2 : TppanTier)
    (rest : List TppanTier) (ht : t.tppan.tiers = t0 :: t1 :: t2 :: rest)
    (hc : t.tppan.exemptionThreshold < c) (h200 : c ≤ 200) :
    t.tppan.exemptionThreshold < 200 ∧
    ∃ r, calculateTPPAN c t = Except.ok r ∧ r.isExempted = false ∧
      r.breakdown.length = 2 ∧
      r.breakdown.map TppanEntry.consumption = [100, 100] ∧
      r.breakdown.map TppanEntry.priceHT = [t0.priceHT, t1.priceHT] ∧
      r.breakdown.map TppanEntry.cost = [100 * t0.priceHT, 100 * t1.priceHT] ∧
      r.tppanHT = 100 * t0.priceHT + 100 * t1.priceHT :=
  ⟨lt_of_lt_of_le hc h200,
    _, calculateTPPAN_two c t t0 t1 (t2 :: rest) ht (not_le.mpr hc) (not_lt.mpr h200),
    rfl, rfl, rfl, rfl, rfl, rfl⟩

/-- Witness of `calculateTPPAN_two_fixed_quantities` at the table with threshold
150 and `c = 180`: two entries, `tppanHT = 100 × 0.0847 + 100 × 0.1271`. -/
theorem calculateTPPAN_two_fixed_quantities_witness :
    threshold150.tppan.exemptionThreshold < 180 ∧ (180 : ℚ) ≤ 200 ∧
    threshold150.tppan.exemptionThreshold < 200 ∧
    ∃ r, calculateTPPAN 180 threshold150 = Except.ok r ∧ r.isExempted = false ∧
      r.breakdown.length = 2 ∧
      r.breakdown.map TppanEntry.consumption = [100, 100] ∧
      r.breakdown.map TppanEntry.priceHT = [0.0847, 0.1271] ∧
      r.breakdown.map TppanEntry.cost = [100 * 0.0847, 100 * 0.1271] ∧
      r.tppanHT = 100 * 0.0847 + 100 * 0.1271 :=
  ⟨by norm_num [threshold150, RADEEF_TARIFFS], by norm_num,
    calculateTPPAN_two_fixed_quantities 180 threshold150
      { min := 0, max := Limit.fin 100, priceHT := 0.0847, name := "الشريحة 1" }
      { min := 101, max := Limit.fin 200, priceHT := 0.1271, name := "الشريحة 2" }
      { min := 201, max := Limit.infinity, priceHT := 0.1695, name := "الشريحة 3" }
      [] rfl (by norm_num [threshold150, RADEEF_TARIFFS]) (by norm_num)⟩

/-- On a number the function that admits `NaN` is `calculateTPPAN`. -/
theorem calculateTPPANAt_some (c : ℚ) (t : Tariffs) :
    calculateTPPANAt (some c) t = calculateTPPAN c t := by
  unfold calculateTPPANAt calculateTPPAN
  by_cases h : c ≤ t.tppan.exemptionThreshold
  · simp [h]
  · simp [h]

/-- At `NaN`, with two surtax tiers, the two fixed quantities are charged and the
result is not exempt. -/
theorem calculateTPPANAt_nan (t : Tariffs) (t0 t1 : TppanTier) (rest : List TppanTier)
    (ht : t.tppan.tiers = t0 :: t1 :: rest) :
    calculateTPPANAt none t = Except.ok
      { tppanHT := 100 * t0.priceHT + 100 * t1.priceHT
        tppanVAT := (100 * t0.priceHT + 100 * t1.priceHT) * t.vatRate
        tppanTTC := (100 * t0.priceHT + 100 * t1.priceHT)
          + (100 * t0.priceHT + 100 * t1.priceHT) * t.vatRate
        breakdown := [
          { name := t0.name ++ " (0-100 كيلوواط ساعة)", consumption := 100,
            priceHT := t0.priceHT, cost := 100 * t0.priceHT },
          { name := t1.name ++ " (101-200 كيلوواط ساعة)", consumption := 100,
            priceHT := t1.priceHT, cost := 100 * t1.priceHT }]
        isExempted := false } := by
  simp [calculateTPPANAt, ht, index_zero, index_one, Except.bind]

/-- C28, counterexample: at the consumption `NaN` both comparisons of
`calculateTPPAN` are false: the guard `consumption > 200` is reached and fails,
and with either built-in table the result is not exempt and has two breakdown
entries and `tppanHT = 21.18`. -/
theorem calculateTPPANAt_nan_two_entries :
    (∃ r, calculateTPPANAt none RADEEF_TARIFFS = Except.ok r ∧ r.isExempted = false ∧
      r.breakdown.length = 2 ∧ r.tppanHT = 21.18) ∧
    (∃ r, calculateTPPANAt none ONEE_TARIFFS = Except.ok r ∧ r.isExempted = false ∧
      r.breakdown.length = 2 ∧ r.tppanHT = 21.18) := by
  refine ⟨⟨_, calculateTPPANAt_nan RADEEF_TARIFFS _ _ _ rfl, rfl, rfl, ?_⟩,
    ⟨_, calculateTPPANAt_nan ONEE_TARIFFS _ _ _ rfl, rfl, rfl, ?_⟩⟩
  · norm_num [RADEEF_TARIFFS]
  · norm_num [ONEE_TARIFFS]

/-- C28, amended: for every consumption that is a number (not `NaN`),
`calculateTPPAN` with either built-in table returns an exempt result with an empty
breakdown, or a non-exempt result with exactly three breakdown entries and
`tppanHT > 21.18`; it never returns one or two entries. -/
theorem calculateTPPANAt_number_zero_or_three (x : Option ℚ) (hx : x ≠ none) :
    (∃ r, calculateTPPANAt x RADEEF_TARIFFS = Except.ok r ∧
      ((r.isExempted = true ∧ r.breakdown = []) ∨
        (r.isExempted = false ∧ r.breakdown.length = 3 ∧ 21.18 < r.tppanHT)) ∧
      r.breakdown.length ≠ 1 ∧ r.breakdown.length ≠ 2) ∧
    (∃ r, calculateTPPANAt x ONEE_TARIFFS = Except.ok r ∧
      ((r.isExempted = true ∧ r.breakdown = []) ∨
        (r.isExempted = false ∧ r.breakdown.length = 3 ∧ 21.18 < r.tppanHT)) ∧
      r.breakdown.length ≠ 1 ∧ r.breakdown.length ≠ 2) := by
  obtain ⟨c, rfl⟩ := Option.ne_none_iff_exists'.mp hx
  rw [calculateTPPANAt_some, calculateTPPANAt_some]
  exact calculateTPPAN_number_zero_or_three c

/-- Witness of `calculateTPPANAt_number_zero_or_three` at 250 kWh. -/
theorem calculateTPPANAt_number_zero_or_three_witness :
    (some (250 : ℚ) ≠ none) ∧
    ((∃ r, calculateTPPANAt (some 250) RADEEF_TARIFFS = Except.ok r ∧
      ((r.isExempted = true ∧ r.breakdown = []) ∨
        (r.isExempted = false ∧ r.breakdown.length = 3 ∧ 21.18 < r.tppanHT)) ∧
      r.breakdown.length ≠ 1 ∧ r.breakdown.length ≠ 2) ∧
    (∃ r, calculateTPPANAt (some 250) ONEE_TARIFFS = Except.ok r ∧
      ((r.isExempted = true ∧ r.breakdown = []) ∨
        (r.isExempted = false ∧ r.breakdown.length = 3 ∧ 21.18 < r.tppanHT)) ∧
      r.breakdown.length ≠ 1 ∧ r.breakdown.length ≠ 2)) :=
  ⟨by simp, calculateTPPANAt_number_zero_or_three (some 250) (by simp)⟩

/-- No function of the script that assigns a variable of the state assigns a
field of the two tables. -/
theorem Action.apply_tables (a : Action) (g : Globals) :
    (a.apply g).RADEEF_TARIFFS = g.RADEEF_TARIFFS ∧
      (a.apply g).ONEE_TARIFFS = g.ONEE_TARIFFS := by
  cases a with
  | toggleLanguage => exact ⟨rfl, rfl⟩
  | showSection sectionName found =>
    cases found <;> exact ⟨rfl, rfl⟩
  | updateCostBreakdownChart result ctx chart =>
    cases ctx <;> exact ⟨rfl, rfl⟩
  | saveToHistory result isoDate now => exact ⟨rfl, rfl⟩
  | initializeConsumptionChart ctx chart =>
    cases ctx <;> exact ⟨rfl, rfl⟩
  | initializeCostChart ctx chart =>
    cases ctx <;> exact ⟨rfl, rfl⟩
  | initializeHistory clock =>
    simp only [Action.apply]
    split_ifs
    · cases sampleItems g clock sampleData 0 <;> exact ⟨rfl, rfl⟩
    · exact ⟨rfl, rfl⟩

/-- A sequence of such calls leaves the two tables as they were. -/
theorem run_tables (actions : List Action) (g : Globals) :
    (run actions g).RADEEF_TARIFFS = g.RADEEF_TARIFFS ∧
      (run actions g).ONEE_TARIFFS = g.ONEE_TARIFFS := by
  induction actions generalizing g with
  | nil => exact ⟨rfl, rfl⟩
  | cons a rest ih =>
    have h1 := ih (a.apply g)
    have h2 := Action.apply_tables a g
    simp only [run, List.foldl_cons] at h1 ⊢
    exact ⟨h1.1.trans h2.1, h1.2.trans h2.2⟩

/-- In every state reached from the initial one the bill functions return the
bill computed from the declared tables. -/
theorem calculateBillIn_reachable (stored : List HistoryItem) (actions : List Action)
    (c : ℚ) :
    (calculateRADEEFBillIn (run actions (initialGlobals stored)) c).1 = calculateRADEEFBill c ∧
    (calculateONEEBillIn (run actions (initialGlobals stored)) c).1 = calculateONEEBill c := by
  obtain ⟨h1, h2⟩ := run_tables actions (initialGlobals stored)
  simp only [calculateRADEEFBillIn, calculateONEEBillIn, h1, h2]
  exact ⟨rfl, rfl⟩

/-- With the declared RADEEF table the sample items are all created. -/
theorem sampleItems_ok (g : Globals) (hg : g.RADEEF_TARIFFS = RADEEF_TARIFFS)
    (clock : ℕ → ℕ) (l : List (ℚ × String)) (index : ℕ) :
    ∃ items, sampleItems g clock l index = Except.ok items ∧ items.length = l.length := by
  induction l generalizing index with
  | nil => exact ⟨[], rfl, rfl⟩
  | cons x rest ih =>
    obtain ⟨c, date⟩ := x
    obtain ⟨items, hitems, hlen⟩ := ih (index + 1)
    obtain ⟨r, hr⟩ := calculateTPPAN_RADEEF_ok c
    obtain ⟨b, hb⟩ : ∃ b, calculateBillWith RADEEF_TARIFFS "RADEEF" c = Except.ok b :=
      ⟨_, calculateBillWith_eq RADEEF_TARIFFS "RADEEF" c r hr⟩
    refine ⟨{ result := b, date := date, id := clock index + index } :: items, ?_,
      by simp [hlen]⟩
    simp only [sampleItems, calculateRADEEFBillIn, hg, hb, hitems, Except.bind]

/-- C18: the three functions assign no variable of the script's state; the result
of `calculateTPPAN` does not depend on the state, and the results of the bill
functions depend on it through the table they read only; no function of the
script that assigns a variable of the state assigns a field of the tables; hence,
whatever was stored, whatever calls of those functions come before the first call
and between the two calls, two calls of a bill function with the same consumption
return one and the same bill (every field and breakdown entry equal), and two
calls of `calculateTPPAN` with the same consumption and table have the same
outcome. -/
theorem calls_independent_of_script_state :
    (∀ (g : Globals) (c : ℚ) (t : Tariffs),
      (calculateRADEEFBillIn g c).2 = g ∧ (calculateONEEBillIn g c).2 = g ∧
        (calculateTPPANIn g c t).2 = g) ∧
    (∀ (g g' : Globals) (c : ℚ) (t : Tariffs),
      (calculateTPPANIn g c t).1 = (calculateTPPANIn g' c t).1 ∧
      (g.RADEEF_TARIFFS = g'.RADEEF_TARIFFS →
        (calculateRADEEFBillIn g c).1 = (calculateRADEEFBillIn g' c).1) ∧
      (g.ONEE_TARIFFS = g'.ONEE_TARIFFS →
        (calculateONEEBillIn g c).1 = (calculateONEEBillIn g' c).1)) ∧
    (∀ (a : Action) (g : Globals),
      (a.apply g).RADEEF_TARIFFS = g.RADEEF_TARIFFS ∧
        (a.apply g).ONEE_TARIFFS = g.ONEE_TARIFFS) ∧
    (∀ (stored : List HistoryItem) (before between : List Action) (c : ℚ) (t : Tariffs),
      (∃ b,
        (calculateRADEEFBillIn (run before (initialGlobals stored)) c).1 = Except.ok b ∧
        (calculateRADEEFBillIn (run between
          (calculateRADEEFBillIn (run before (initialGlobals stored)) c).2) c).1
            = Except.ok b) ∧
      (∃ b,
        (calculateONEEBillIn (run before (initialGlobals stored)) c).1 = Except.ok b ∧
        (calculateONEEBillIn (run between
          (calculateONEEBillIn (run before (initialGlobals stored)) c).2) c).1
            = Except.ok b) ∧
      (calculateTPPANIn (run between
          (calculateTPPANIn (run before (initialGlobals stored)) c t).2) c t).1
        = (calculateTPPANIn (run before (initialGlobals stored)) c t).1) := by
  refine ⟨fun g c t => ⟨rfl, rfl, rfl⟩, ?_, Action.apply_tables, ?_⟩
  · intro g g' c t
    refine ⟨rfl, ?_, ?_⟩
    · intro h
      simp only [calculateRADEEFBillIn, h]
    · intro h
      simp only [calculateONEEBillIn, h]
  · intro stored before between c t
    obtain ⟨r, hr⟩ := calculateTPPAN_RADEEF_ok c
    obtain ⟨o, ho⟩ := calculateTPPAN_ONEE_ok c
    have hR : ∃ b, calculateRADEEFBill c = Except.ok b := ⟨_, calculateBillWith_eq _ _ _ r hr⟩
    have hO : ∃ b, calculateONEEBill c = Except.ok b := ⟨_, calculateBillWith_eq _ _ _ o ho⟩
    obtain ⟨bR, hbR⟩ := hR
    obtain ⟨bO, hbO⟩ := hO
    have e1 := calculateBillIn_reachable stored before c
    have e2 := calculateBillIn_reachable stored (before ++ between) c
    have hrun : ∀ g, run (before ++ between) g = run between (run before g) := by
      intro g
      simp only [run, List.foldl_append]
    rw [hrun] at e2
    refine ⟨⟨bR, e1.1.trans hbR, ?_⟩, ⟨bO, e1.2.trans hbO, ?_⟩, rfl⟩
    · exact e2.1.trans hbR
    · exact e2.2.trans hbO

/-- Witness of `calls_independent_of_script_state`: with nothing stored, the
language toggled before the first call, and the dashboard shown, the sample
history created and a chart drawn between the two calls, the state of the second
call differs from that of the first (section `dashboard`, six items in the
history, a chart) and both calls of `calculateRADEEFBill(250)` return the same
bill. -/
theorem calls_independent_of_script_state_witness :
    (run [Action.toggleLanguage] (initialGlobals [])).currentSection = "hero" ∧
    (run [Action.toggleLanguage] (initialGlobals [])).history.calculationHistory.length = 0 ∧
    (run [Action.showSection "dashboard" true, Action.initializeHistory (fun _ => 0),
        Action.initializeCostChart true 1]
      (calculateRADEEFBillIn (run [Action.toggleLanguage] (initialGlobals [])) 250).2
      ).currentSection = "dashboard" ∧
    (run [Action.showSection "dashboard" true, Action.initializeHistory (fun _ => 0),
        Action.initializeCostChart true 1]
      (calculateRADEEFBillIn (run [Action.toggleLanguage] (initialGlobals [])) 250).2
      ).history.calculationHistory.length = 6 ∧
    ∃ b,
      (calculateRADEEFBillIn (run [Action.toggleLanguage] (initialGlobals [])) 250).1
        = Except.ok b ∧
      (calculateRADEEFBillIn
        (run [Action.showSection "dashboard" true, Action.initializeHistory (fun _ => 0),
            Action.initializeCostChart true 1]
          (calculateRADEEFBillIn (run [Action.toggleLanguage] (initialGlobals [])) 250).2)
        250).1 = Except.ok b := by
  refine ⟨rfl, rfl, rfl, ?_,
    (calls_independent_of_script_state.2.2.2 [] [Action.toggleLanguage]
      [Action.showSection "dashboard" true, Action.initializeHistory (fun _ => 0),
        Action.initializeCostChart true 1] 250 RADEEF_TARIFFS).1⟩
  obtain ⟨items, hitems, hlen⟩ := sampleItems_ok
    ((Action.showSection "dashboard" true).apply (run [Action.toggleLanguage] (initialGlobals [])))
    rfl (fun _ => 0) sampleData 0
  simp only [run, List.foldl_cons, List.foldl_nil, Action.apply, calculateRADEEFBillIn,
    initialGlobals, List.length_nil, if_true, Bool.not_true, Bool.false_eq_true, if_false]
    at hitems ⊢
  simp only [hitems, hlen]
  rfl

end Electro
